import Mathlib

/-!
Shallow embedding of the permission-resolution and inventory-ledger core of
the Hotline backend (a point-of-sale and repair-shop API), together with
theorems checking its specification.

Conventions used throughout:
* Mongo ObjectIds are modelled as natural numbers; the sentinel 0 plays the
  role of a missing (falsy) id where the source does truthiness checks.
* JavaScript numbers holding money are modelled as rationals; Math.round is
  modelled exactly (round half toward positive infinity).
* Persisted collections are lists; a controller action maps a database state
  to a new database state plus an optional error.  When the source throws in
  the middle of a sequence of writes, the writes already awaited stay
  committed, which the embedding reproduces by returning the partial state
  together with the error.
* Mongoose schema validation that can reject a write (for example the min-0
  validator on the stock quantity) is part of the corresponding save or
  create function.
-/

namespace Hotline

/-- Math.round of JavaScript: round half toward positive infinity. -/
def jsRound (x : ℚ) : ℚ := ((Int.floor (x + 1/2) : ℤ) : ℚ)

/-- The rounding idiom Math.round(x * 100) / 100 used for money amounts. -/
def round2 (x : ℚ) : ℚ := jsRound (x * 100) / 100

/-- JavaScript defaulting idiom (s or d) for strings: the empty string is
falsy and is replaced by the default. -/
def jsOrStr (o : Option String) (d : String) : String :=
  match o with
  | some s => if s == "" then d else s
  | none => d

/-- JavaScript defaulting idiom (x or d) for numbers: 0 is falsy and is
replaced by the default. -/
def jsOrQ (o : Option ℚ) (d : ℚ) : ℚ :=
  match o with
  | some x => if x == 0 then d else x
  | none => d

/-! ## Permission resolution (middlewares/auth/authorize.js) -/

/-- A principal as seen by the authorize middleware: the isSuperAdmin flag,
the permission codes of each populated role, and the directPermissions list
of (permission code, type) pairs where type is ALLOW or DENY. -/
structure UserPerm where
  isSuperAdmin : Bool
  roles : List (List String)
  directPermissions : List (String × String)
  deriving DecidableEq, Repr

/-- Resolution of a single required permission code for a non-superadmin,
following authorize.js: the first matching entry of directPermissions wins
(allowed unless its type is DENY); with no direct override the code must
appear among the role-derived permissions. -/
def checkPermCode (u : UserPerm) (permCode : String) : Bool :=
  match u.directPermissions.find? (fun dp => dp.1 == permCode) with
  | some dp => !(dp.2 == "DENY")
  | none => (u.roles.flatten).contains permCode

/-- The authorize middleware: a super admin bypasses every check; otherwise
each required code is resolved by checkPermCode and access is granted when
all (requireAll) or at least one (default) resolve to allowed. -/
def authorize (u : UserPerm) (required : List String) (requireAll : Bool) : Bool :=
  if u.isSuperAdmin then true
  else
    let allowedCount := (required.filter (fun c => checkPermCode u c)).length
    if requireAll then allowedCount == required.length else decide (0 < allowedCount)

/-! ## Stock records (models/inventory/stockModel.js) -/

/-- Stock records: one (product id, quantity) pair per product. -/
abbrev Stocks := List (Nat × Int)

/-- Stock.findOne for a product: quantity of the first record with this
product id, if any. -/
def lookupQty (st : Stocks) (p : Nat) : Option Int :=
  (st.find? (fun pr => pr.1 == p)).map (fun pr => pr.2)

/-- Effective stock quantity of a product: a product without a stock record
is treated as quantity 0 everywhere in the source. -/
def stockQty (st : Stocks) (p : Nat) : Int := (lookupQty st p).getD 0

/-- Stock.getOrCreate: return the existing record quantity, or create a
record at quantity 0 (the creation is committed immediately). -/
def getOrCreate (st : Stocks) (p : Nat) : Int × Stocks :=
  match lookupQty st p with
  | some q => (q, st)
  | none => (0, st ++ [(p, 0)])

/-- Overwrite the quantity of every record of this product (the product
field carries a unique index, so at most one record exists in real states). -/
def setStock (st : Stocks) (p : Nat) (q : Int) : Stocks :=
  st.map (fun pr => if pr.1 == p then (pr.1, q) else pr)

/-- Errors surfaced by the embedded controllers; AppError responses and
mongoose validation failures are distinguished by constructor. -/
inductive Err where
  | requiredFields
  | invalidAdjustmentType
  | quantityNotPositive
  | productNotFound
  | productNotAvailable
  | saleNotFound
  | saleItemNotFound
  | saleAlreadyVoided
  | insufficientStock
  | insufficientPayment
  | cannotReturnMore
  | warrantyNotFound
  | warrantyInvalid
  | repairJobNotFound
  | notAssignedTechnician
  | invalidRepairStatus
  | cannotCancelCompleted
  | negativeStockValidation
  | adjustmentValidation
  | returnValidation
  | saleValidation
  | jsTypeError
  deriving DecidableEq, Repr

instance {ε α : Type} [DecidableEq ε] [DecidableEq α] : DecidableEq (Except ε α) :=
  fun a b => by
    cases a <;> cases b
    case error.error x y => exact decidable_of_iff (x = y) (by simp)
    case error.ok x y => exact isFalse (by simp)
    case ok.error x y => exact isFalse (by simp)
    case ok.ok x y => exact decidable_of_iff (x = y) (by simp)

/-- Saving a stock record with a new quantity: the stockSchema min-0
validator rejects a negative quantity and the record keeps its old value. -/
def saveStock (st : Stocks) (p : Nat) (q : Int) : Except Err Stocks :=
  if q < 0 then .error .negativeStockValidation else .ok (setStock st p q)

/-! ## Stock adjustments (models/inventory/stockAdjustmentModel.js) -/

/-- The values of the ADJUSTMENT_TYPES object, in declaration order.  Note
that WARRANTY_REPLACE is not among them. -/
def adjustmentTypeValues : List String :=
  ["ADDITION", "REDUCTION", "PURCHASE", "SALE", "RETURN", "DAMAGE", "THEFT",
   "CORRECTION", "TRANSFER_IN", "TRANSFER_OUT"]

/-- JavaScript member access on the ADJUSTMENT_TYPES object: each declared
key maps to the equal string value; any other key (such as WARRANTY_REPLACE)
yields undefined, modelled as none. -/
def adjustmentTypesObj (key : String) : Option String :=
  if adjustmentTypeValues.contains key then some key else none

/-- A persisted StockAdjustment document.  The type field is kept as an
Option because the source can pass undefined to create. -/
structure Adjustment where
  product : Nat
  type : Option String
  quantity : Int
  previousQuantity : Int
  newQuantity : Int
  reference : Option Nat
  createdBy : Nat
  deriving DecidableEq, Repr

/-- StockAdjustment.create with its schema validation: type is required and
must be one of ADJUSTMENT_TYPES, quantity has a min-1 validator. -/
def mkAdjustment (product : Nat) (ty : Option String) (qty prevQ newQ : Int)
    (ref : Option Nat) (actor : Nat) : Except Err Adjustment :=
  match ty with
  | none => .error .adjustmentValidation
  | some t =>
    if !(adjustmentTypeValues.contains t) then .error .adjustmentValidation
    else if qty < 1 then .error .adjustmentValidation
    else .ok ⟨product, some t, qty, prevQ, newQ, ref, actor⟩

/-! ## Remaining document schemas -/

/-- The values of the RETURN_TYPES object of models/sale/returnModel.js:
only REFUND and EXCHANGE are declared.  WARRANTY_REFUND is not a key. -/
def returnTypeValues : List String := ["REFUND", "EXCHANGE"]

/-- JavaScript member access on the RETURN_TYPES object. -/
def returnTypesObj (key : String) : Option String :=
  if returnTypeValues.contains key then some key else none

/-- Product catalog data used by the embedded controllers. -/
structure Product where
  id : Nat
  name : String
  isActive : Bool
  sellingPrice : ℚ
  costPrice : ℚ
  taxRate : ℚ
  warrantyDuration : Int
  deriving DecidableEq, Repr

/-- Embedded customer block of a sale. -/
structure Customer where
  name : String
  phone : String
  deriving DecidableEq, Repr

/-- A sale line item as persisted (snapshot fields reduced to those the
embedded flows read); itemId models the subdocument id used by returns. -/
structure SaleItem where
  itemId : Nat
  product : Nat
  productName : String
  quantity : Int
  unitPrice : ℚ
  discount : ℚ
  total : ℚ
  deriving DecidableEq, Repr

/-- A payment subdocument. -/
structure Payment where
  method : String
  amount : ℚ
  deriving DecidableEq, Repr

/-- A persisted Sale document. -/
structure Sale where
  id : Nat
  items : List SaleItem
  payments : List Payment
  customer : Option Customer
  subtotal : ℚ
  discountTotal : ℚ
  taxTotal : ℚ
  grandTotal : ℚ
  amountPaid : ℚ
  changeGiven : ℚ
  status : String
  voidedBy : Option Nat
  voidReason : Option String
  deriving DecidableEq, Repr

/-- A return line item. -/
structure RetItem where
  product : Nat
  productName : String
  quantity : Int
  unitPrice : ℚ
  refundAmount : ℚ
  deriving DecidableEq, Repr

/-- A persisted Return document. -/
structure Ret where
  id : Nat
  originalSale : Option Nat
  returnType : String
  items : List RetItem
  totalRefund : ℚ
  exchangeSale : Option Nat
  exchangeAmountDue : ℚ
  refundMethod : Option String
  status : String
  createdBy : Nat
  deriving DecidableEq, Repr

/-- Return.create with the returnSchema validation: returnType is required
and must be one of RETURN_TYPES; items must be nonempty with quantity at
least 1 and nonnegative unitPrice and refundAmount; totalRefund must be
nonnegative. -/
def mkRet (id : Nat) (originalSale : Option Nat) (returnType : Option String)
    (items : List RetItem) (totalRefund : ℚ) (exchangeSale : Option Nat)
    (exchangeAmountDue : ℚ) (refundMethod : Option String) (actor : Nat) :
    Except Err Ret :=
  match returnType with
  | none => .error .returnValidation
  | some t =>
    if !(returnTypeValues.contains t) then .error .returnValidation
    else if items.isEmpty then .error .returnValidation
    else if items.any (fun it => it.quantity < 1 || it.unitPrice < 0 || it.refundAmount < 0) then
      .error .returnValidation
    else if totalRefund < 0 then .error .returnValidation
    else .ok ⟨id, originalSale, t, items, totalRefund, exchangeSale,
              exchangeAmountDue, refundMethod, "COMPLETED", actor⟩

/-- A claim embedded in a warranty document. -/
structure WClaim where
  issue : String
  resolution : Option String
  claimCost : ℚ
  refundAmount : ℚ
  repairJob : Option Nat
  replacementProduct : Option Nat
  returnRecord : Option Nat
  processedBy : Nat
  deriving DecidableEq, Repr

/-- A persisted Warranty document; dates are abstract integer timestamps. -/
structure Warranty where
  id : Nat
  product : Nat
  productName : String
  sale : Option Nat
  durationMonths : Int
  endDate : Int
  status : String
  claims : List WClaim
  voidedBy : Option Nat
  voidReason : Option String
  customer : Customer
  deriving DecidableEq, Repr

/-- A consumed part recorded on a repair job. -/
structure RepairPart where
  product : Nat
  productName : String
  quantity : Int
  unitPrice : ℚ
  total : ℚ
  deriving DecidableEq, Repr

/-- Embedded from repairJobModel.js, found as the second document of
src/src/models/promotion/promotionModel.js: REPAIR_STATUS is the enum
RECEIVED, IN_PROGRESS, READY, COMPLETED, CANCELLED, and repairJobSchema
carries the fields below.  Only the fields the embedded controller flows
read or write are kept. -/
structure RepairJob where
  id : Nat
  status : String
  assignedTo : Option Nat
  partsUsed : List RepairPart
  laborCost : ℚ
  cancelledBy : Option Nat
  cancelReason : Option String
  deriving DecidableEq, Repr

/-- The full persisted state touched by the embedded flows.  nextId feeds
the ids of newly created documents (ids in the source are Mongo ObjectIds). -/
structure DB where
  products : List Product
  stocks : Stocks
  adjustments : List Adjustment
  sales : List Sale
  rets : List Ret
  warranties : List Warranty
  repairs : List RepairJob
  nextId : Nat
  deriving DecidableEq, Repr

/-- Product.findById. -/
def findProduct (db : DB) (pid : Nat) : Option Product :=
  db.products.find? (fun p => p.id == pid)

/-- Sale.findById. -/
def findSale (db : DB) (sid : Nat) : Option Sale :=
  db.sales.find? (fun s => s.id == sid)

/-- Warranty.findById. -/
def findWarranty (db : DB) (wid : Nat) : Option Warranty :=
  db.warranties.find? (fun w => w.id == wid)

/-- RepairJob.findById. -/
def findRepair (db : DB) (rid : Nat) : Option RepairJob :=
  db.repairs.find? (fun r => r.id == rid)

/-! ## Manual stock adjustment (inventory controller, adjustStock) -/

/-- The adjustStock controller.  Field truthiness checks, the type allow
list, the positivity check, the direction list (note CORRECTION sits in the
addition list, and the CORRECTION branch computes the same formula as the
general one), the negative-stock guard, the stock save and the adjustment
create are taken in source order. -/
def adjustStock (db : DB) (productId : Nat) (ty : String) (quantity : Int)
    (actor : Nat) : DB × Option Err :=
  if productId == 0 || ty == "" || quantity == 0 then (db, some .requiredFields)
  else if !(adjustmentTypeValues.contains ty) then (db, some .invalidAdjustmentType)
  else if quantity ≤ 0 then (db, some .quantityNotPositive)
  else
    match findProduct db productId with
    | none => (db, some .productNotFound)
    | some _ =>
      let pq := getOrCreate db.stocks productId
      let previousQuantity := pq.1
      let isAddition :=
        (["ADDITION", "PURCHASE", "RETURN", "TRANSFER_IN", "CORRECTION"].contains ty)
      let newQuantity :=
        if isAddition then previousQuantity + quantity else previousQuantity - quantity
      if newQuantity < 0 then ({db with stocks := pq.2}, some .insufficientStock)
      else
        match saveStock pq.2 productId newQuantity with
        | .error e => ({db with stocks := pq.2}, some e)
        | .ok stocks2 =>
          match mkAdjustment productId (some ty) quantity previousQuantity newQuantity
              none actor with
          | .error e => ({db with stocks := stocks2}, some e)
          | .ok adj =>
            ({db with stocks := stocks2, adjustments := db.adjustments ++ [adj]}, none)

/-! ## Sale creation and voiding (controllers/sale/saleController.js) -/

/-- An element of the items array of a createSale request body. -/
structure SaleItemInput where
  productId : Nat
  quantity : Int
  unitPrice : Option ℚ
  discount : Option ℚ
  deriving DecidableEq, Repr

/-- An element of the payments array of a request body. -/
structure PaymentInput where
  method : Option String
  amount : ℚ
  deriving DecidableEq, Repr

/-- The createSale request body. -/
structure SaleArgs where
  items : List SaleItemInput
  payments : List PaymentInput
  discountType : Option String
  discountValue : ℚ
  customer : Option Customer
  deriving DecidableEq, Repr

/-- The item processing and validation loop of createSale: per item it loads
the product, requires it active, compares the requested quantity against the
current stock level (state is not mutated here, so every comparison is
against the pre-sale level), and accumulates the totals.  Returns the
processed items together with the running unrounded subtotal and tax total. -/
def processSaleItems (db : DB) : List SaleItemInput → Except Err (List SaleItem × ℚ × ℚ)
  | [] => .ok ([], 0, 0)
  | item :: rest =>
    match findProduct db item.productId with
    | none => .error .productNotFound
    | some product =>
      if !product.isActive then .error .productNotAvailable
      else
        let currentQty := stockQty db.stocks item.productId
        if currentQty < item.quantity then .error .insufficientStock
        else
          let unitPrice := jsOrQ item.unitPrice product.sellingPrice
          let itemDiscount := jsOrQ item.discount 0
          let itemSubtotal := unitPrice * (item.quantity : ℚ)
          let taxAmount := (itemSubtotal - itemDiscount) * (product.taxRate / 100)
          let itemTotal := itemSubtotal - itemDiscount + taxAmount
          match processSaleItems db rest with
          | .error e => .error e
          | .ok (items, sub, tax) =>
            .ok (⟨0, item.productId, product.name, item.quantity, unitPrice,
                  itemDiscount, round2 itemTotal⟩ :: items,
                 itemSubtotal + sub, taxAmount + tax)

/-- Mongoose assigns each embedded sale item a fresh subdocument id at
create time; the embedding numbers them 1, 2, ... in list order. -/
def assignItemIds (n : Nat) : List SaleItem → List SaleItem
  | [] => []
  | it :: rest => {it with itemId := n} :: assignItemIds (n + 1) rest

/-- Sale.create validation from saleSchema: at least one item, item
quantity min 1, nonnegative item unitPrice and discount, nonnegative
subtotal, discountTotal, grandTotal, amountPaid and changeGiven. -/
def saleValidate (s : Sale) : Option Err :=
  if s.items.isEmpty then some .saleValidation
  else if s.items.any (fun it => it.quantity < 1 || it.unitPrice < 0 || it.discount < 0) then
    some .saleValidation
  else if s.subtotal < 0 || s.discountTotal < 0 || s.grandTotal < 0
      || s.amountPaid < 0 || s.changeGiven < 0 then
    some .saleValidation
  else none

/-- The per-item inventory deduction loop of createSale: getOrCreate the
stock record, write previousQuantity minus the item quantity (the save
carries the min-0 validator; there is no insufficiency check here), then
create the SALE adjustment.  An error stops the loop and keeps the writes
already committed. -/
def deductLoop (st : Stocks) (adjs : List Adjustment) (refId actor : Nat) :
    List SaleItem → Stocks × List Adjustment × Option Err
  | [] => (st, adjs, none)
  | item :: rest =>
    let pq := getOrCreate st item.product
    let newQ := pq.1 - item.quantity
    match saveStock pq.2 item.product newQ with
    | .error e => (pq.2, adjs, some e)
    | .ok st2 =>
      match mkAdjustment item.product (adjustmentTypesObj "SALE") item.quantity
          pq.1 newQ (some refId) actor with
      | .error e => (st2, adjs, some e)
      | .ok adj => deductLoop st2 (adjs ++ [adj]) refId actor rest

/-- Calendar-month end-date arithmetic (setMonth) abstracted over integer
timestamps: a duration of m months advances the timestamp by m. -/
def addMonths (t m : Int) : Int := t + m

/-- The automatic warranty creation loop at the end of createSale: when the
customer block carries a name and a phone, every unit of every item whose
product has a positive warrantyDuration gets its own warranty. -/
def saleWarrantyLoop (db : DB) (saleId : Nat) (customer : Customer) (now : Int)
    (actor : Nat) : List SaleItem → DB
  | [] => db
  | item :: rest =>
    match findProduct db item.product with
    | none => saleWarrantyLoop db saleId customer now actor rest
    | some product =>
      if product.warrantyDuration > 0 then
        let count := item.quantity.toNat
        let newWs := (List.range count).map (fun i =>
          ({ id := db.nextId + i, product := product.id, productName := product.name,
             sale := some saleId, durationMonths := product.warrantyDuration,
             endDate := addMonths now product.warrantyDuration, status := "ACTIVE",
             claims := [], voidedBy := none, voidReason := none,
             customer := customer } : Warranty))
        saleWarrantyLoop
          {db with warranties := db.warranties ++ newWs, nextId := db.nextId + count}
          saleId customer now actor rest
      else saleWarrantyLoop db saleId customer now actor rest

/-- The createSale controller: validate and process items, compute the sale
discount (PERCENTAGE or FIXED), the rounded grand total, the payments and
change, persist the sale with status COMPLETED, then run the per-item
deduction loop, then the warranty creation loop. -/
def createSale (db : DB) (args : SaleArgs) (now : Int) (actor : Nat) : DB × Option Err :=
  if args.items.isEmpty then (db, some .requiredFields)
  else
    match processSaleItems db args.items with
    | .error e => (db, some e)
    | .ok (pItems0, subtotal, taxTotal) =>
      let pItems := assignItemIds 1 pItems0
      let discountTotal :=
        match args.discountType with
        | some dt =>
          if args.discountValue > 0 then
            if dt == "PERCENTAGE" then subtotal * args.discountValue / 100
            else if dt == "FIXED" then args.discountValue
            else 0
          else 0
        | none => 0
      let grandTotal := round2 (subtotal - discountTotal + taxTotal)
      let processedPayments :=
        (args.payments.filter (fun p => p.amount > 0)).map
          (fun p => ({method := jsOrStr p.method "CASH", amount := p.amount} : Payment))
      let amountPaid := (processedPayments.map (fun p => p.amount)).sum
      let changeGiven := max 0 (amountPaid - grandTotal)
      let sale : Sale :=
        { id := db.nextId, items := pItems, payments := processedPayments,
          customer := args.customer, subtotal := round2 subtotal,
          discountTotal := round2 discountTotal, taxTotal := round2 taxTotal,
          grandTotal := grandTotal, amountPaid := amountPaid,
          changeGiven := round2 changeGiven, status := "COMPLETED",
          voidedBy := none, voidReason := none }
      match saleValidate sale with
      | some e => (db, some e)
      | none =>
        let db1 := {db with sales := db.sales ++ [sale], nextId := db.nextId + 1}
        match deductLoop db1.stocks db1.adjustments sale.id actor pItems with
        | (st', adjs', some e) => ({db1 with stocks := st', adjustments := adjs'}, some e)
        | (st', adjs', none) =>
          let db2 := {db1 with stocks := st', adjustments := adjs'}
          match args.customer with
          | some c =>
            if c.phone != "" && c.name != "" then
              (saleWarrantyLoop db2 sale.id c now actor pItems, none)
            else (db2, none)
          | none => (db2, none)

/-- The per-item stock restoration loop used by voidSale and cancelRepair:
getOrCreate, add the quantity back, save, and create a RETURN adjustment. -/
def restoreLoop (st : Stocks) (adjs : List Adjustment) (refId actor : Nat) :
    List (Nat × Int) → Stocks × List Adjustment × Option Err
  | [] => (st, adjs, none)
  | (p, q) :: rest =>
    let pq := getOrCreate st p
    let newQ := pq.1 + q
    match saveStock pq.2 p newQ with
    | .error e => (pq.2, adjs, some e)
    | .ok st2 =>
      match mkAdjustment p (adjustmentTypesObj "RETURN") q pq.1 newQ (some refId) actor with
      | .error e => (st2, adjs, some e)
      | .ok adj => restoreLoop st2 (adjs ++ [adj]) refId actor rest

/-- The voidSale controller: requires a reason and a non-voided sale,
restores stock for every item with RETURN adjustments, then marks the sale
VOIDED with the void metadata. -/
def voidSale (db : DB) (saleId : Nat) (reason : String) (actor : Nat) : DB × Option Err :=
  if reason == "" then (db, some .requiredFields)
  else
    match findSale db saleId with
    | none => (db, some .saleNotFound)
    | some sale =>
      if sale.status == "VOIDED" then (db, some .saleAlreadyVoided)
      else
        match restoreLoop db.stocks db.adjustments sale.id actor
            (sale.items.map (fun it => (it.product, it.quantity))) with
        | (st', adjs', some e) => ({db with stocks := st', adjustments := adjs'}, some e)
        | (st', adjs', none) =>
          let sales' := db.sales.map (fun s =>
            if s.id == saleId then
              {s with status := "VOIDED", voidedBy := some actor, voidReason := some reason}
            else s)
          ({db with stocks := st', adjustments := adjs', sales := sales'}, none)

/-! ## Returns and exchanges (controllers/sale/returnController.js) -/

/-- An element of the items array of a createReturn request body. -/
structure ReturnItemInput where
  saleItemId : Nat
  quantity : Option Int
  deriving DecidableEq, Repr

/-- The return-item processing loop shared by createReturn and
createExchange: locate the sale line by embedded item id, default the
returned quantity to the purchased quantity (0 is falsy), reject returning
more than purchased, and compute the item refund as unitPrice times
returnQty minus the full line discount.  Returns the processed items and
the unrounded refund total. -/
def processReturnItems (sale : Sale) : List ReturnItemInput → Except Err (List RetItem × ℚ)
  | [] => .ok ([], 0)
  | item :: rest =>
    match sale.items.find? (fun si => si.itemId == item.saleItemId) with
    | none => .error .saleItemNotFound
    | some saleItem =>
      let returnQty :=
        match item.quantity with
        | some q => if q == 0 then saleItem.quantity else q
        | none => saleItem.quantity
      if returnQty > saleItem.quantity then .error .cannotReturnMore
      else
        let itemRefund := saleItem.unitPrice * (returnQty : ℚ) - saleItem.discount
        match processReturnItems sale rest with
        | .error e => .error e
        | .ok (items, total) =>
          .ok (⟨saleItem.product, saleItem.productName, returnQty,
                saleItem.unitPrice, round2 itemRefund⟩ :: items,
               itemRefund + total)

/-- The stock restoration loop of createReturn and of the return half of
createExchange: per item it restores the quantity with a RETURN adjustment
and then voids every ACTIVE warranty tied to the original sale and this
product. -/
def returnRestoreLoop (st : Stocks) (adjs : List Adjustment) (ws : List Warranty)
    (origSaleId retId actor : Nat) (voidNote : String) :
    List RetItem → Stocks × List Adjustment × List Warranty × Option Err
  | [] => (st, adjs, ws, none)
  | item :: rest =>
    let pq := getOrCreate st item.product
    let newQ := pq.1 + item.quantity
    match saveStock pq.2 item.product newQ with
    | .error e => (pq.2, adjs, ws, some e)
    | .ok st2 =>
      match mkAdjustment item.product (adjustmentTypesObj "RETURN") item.quantity
          pq.1 newQ (some retId) actor with
      | .error e => (st2, adjs, ws, some e)
      | .ok adj =>
        let ws' := ws.map (fun w =>
          if w.sale == some origSaleId && w.product == item.product && w.status == "ACTIVE" then
            {w with status := "VOID", voidedBy := some actor, voidReason := some voidNote}
          else w)
        returnRestoreLoop st2 (adjs ++ [adj]) ws' origSaleId retId actor voidNote rest

/-- The createReturn controller: validate the request and the original
sale, process the return items, persist the Return of type REFUND, then
restore stock and void matching warranties item by item. -/
def createReturn (db : DB) (originalSaleId : Nat) (items : List ReturnItemInput)
    (reason : String) (refundMethod : Option String) (actor : Nat) : DB × Option Err :=
  if originalSaleId == 0 || items.isEmpty then (db, some .requiredFields)
  else if reason == "" then (db, some .requiredFields)
  else
    match findSale db originalSaleId with
    | none => (db, some .saleNotFound)
    | some sale =>
      if sale.status == "VOIDED" then (db, some .saleAlreadyVoided)
      else
        match processReturnItems sale items with
        | .error e => (db, some e)
        | .ok (rItems, totalRefund) =>
          match mkRet db.nextId (some originalSaleId) (returnTypesObj "REFUND") rItems
              (round2 totalRefund) none 0 (some (jsOrStr refundMethod "CASH")) actor with
          | .error e => (db, some e)
          | .ok ret =>
            let db1 := {db with rets := db.rets ++ [ret], nextId := db.nextId + 1}
            match returnRestoreLoop db1.stocks db1.adjustments db1.warranties
                originalSaleId ret.id actor "Product returned" rItems with
            | (st', adjs', ws', e?) =>
              ({db1 with stocks := st', adjustments := adjs', warranties := ws'}, e?)

/-- The new-item processing loop of createExchange: like the createSale
loop but without per-item discounts (tax applies to the full subtotal).
Returns the processed items, the unrounded new-items total, and the sum of
the per-item rounded tax amounts (which the source stores as taxTotal). -/
def processExchangeNewItems (db : DB) : List SaleItemInput → Except Err (List SaleItem × ℚ × ℚ)
  | [] => .ok ([], 0, 0)
  | item :: rest =>
    match findProduct db item.productId with
    | none => .error .productNotFound
    | some product =>
      if !product.isActive then .error .productNotAvailable
      else
        let currentQty := stockQty db.stocks item.productId
        if currentQty < item.quantity then .error .insufficientStock
        else
          let unitPrice := jsOrQ item.unitPrice product.sellingPrice
          let itemSubtotal := unitPrice * (item.quantity : ℚ)
          let taxAmount := itemSubtotal * (product.taxRate / 100)
          let itemTotal := itemSubtotal + taxAmount
          match processExchangeNewItems db rest with
          | .error e => .error e
          | .ok (items, total, taxSum) =>
            .ok (⟨0, item.productId, product.name, item.quantity, unitPrice, 0,
                  round2 itemTotal⟩ :: items,
                 itemTotal + total, round2 taxAmount + taxSum)

/-- The createExchange controller: process the returned and the new items,
compute exchangeAmountDue as the rounded difference, require sufficient
payment only when the due amount is positive, persist the new Sale and the
EXCHANGE Return (whose stored exchangeAmountDue is clamped at 0), then
restore stock for returned items (voiding matching warranties) and deduct
stock for the new items. -/
def createExchange (db : DB) (originalSaleId : Nat) (returnItems : List ReturnItemInput)
    (newItems : List SaleItemInput) (payments : List PaymentInput) (reason : String)
    (customer : Option Customer) (actor : Nat) : DB × Option Err :=
  if originalSaleId == 0 || returnItems.isEmpty then (db, some .requiredFields)
  else if newItems.isEmpty then (db, some .requiredFields)
  else if reason == "" then (db, some .requiredFields)
  else
    match findSale db originalSaleId with
    | none => (db, some .saleNotFound)
    | some sale =>
      if sale.status == "VOIDED" then (db, some .saleAlreadyVoided)
      else
        match processReturnItems sale returnItems with
        | .error e => (db, some e)
        | .ok (rItems, totalRefund) =>
          match processExchangeNewItems db newItems with
          | .error e => (db, some e)
          | .ok (nItems0, newItemsTotal, taxSum) =>
            let exchangeAmountDue := round2 (newItemsTotal - totalRefund)
            let processedPayments :=
              (payments.filter (fun p => p.amount > 0)).map
                (fun p => ({method := jsOrStr p.method "CASH", amount := p.amount} : Payment))
            let amountPaid := (processedPayments.map (fun p => p.amount)).sum
            if exchangeAmountDue > 0 && amountPaid < exchangeAmountDue then
              (db, some .insufficientPayment)
            else
              let changeGiven := max 0 (amountPaid - max 0 exchangeAmountDue)
              let newSale : Sale :=
                { id := db.nextId, items := assignItemIds 1 nItems0,
                  payments := processedPayments,
                  customer := customer.orElse (fun _ => sale.customer),
                  subtotal := round2 newItemsTotal, discountTotal := 0,
                  taxTotal := taxSum, grandTotal := round2 newItemsTotal,
                  amountPaid := amountPaid, changeGiven := round2 changeGiven,
                  status := "COMPLETED", voidedBy := none, voidReason := none }
              match saleValidate newSale with
              | some e => (db, some e)
              | none =>
                let db1 := {db with sales := db.sales ++ [newSale], nextId := db.nextId + 1}
                match mkRet db1.nextId (some originalSaleId) (returnTypesObj "EXCHANGE")
                    rItems (round2 totalRefund) (some newSale.id) (max 0 exchangeAmountDue)
                    (if exchangeAmountDue < 0 then some "CASH" else none) actor with
                | .error e => (db1, some e)
                | .ok ret =>
                  let db2 := {db1 with rets := db1.rets ++ [ret], nextId := db1.nextId + 1}
                  match returnRestoreLoop db2.stocks db2.adjustments db2.warranties
                      originalSaleId ret.id actor "Product exchanged" rItems with
                  | (st', adjs', ws', some e) =>
                    ({db2 with stocks := st', adjustments := adjs', warranties := ws'}, some e)
                  | (st', adjs', ws', none) =>
                    let db3 := {db2 with stocks := st', adjustments := adjs', warranties := ws'}
                    match deductLoop db3.stocks db3.adjustments newSale.id actor newSale.items with
                    | (st2, adjs2, e?) =>
                      ({db3 with stocks := st2, adjustments := adjs2}, e?)

/-! ## Repair jobs (controllers/repair/repairController.js) -/

/-- An element of the partsUsed array of a completeRepair request body. -/
structure PartInput where
  productId : Nat
  quantity : Int
  unitPrice : Option ℚ
  deriving DecidableEq, Repr

/-- The parts loop of completeRepair.  Unlike createSale, the stock check
and the deduction happen inside the same iteration, so each check sees the
deductions of earlier parts.  The stock record is read with findOne (no
creation); when no record exists and the availability check still passes
(possible only for a nonpositive requested quantity) the source dereferences
null and throws, modelled as jsTypeError.  An error stops the loop keeping
earlier deductions committed. -/
def partsLoop (products : List Product) (st : Stocks) (adjs : List Adjustment)
    (processed : List RepairPart) (refId actor : Nat) :
    List PartInput → List RepairPart × Stocks × List Adjustment × Option Err
  | [] => (processed, st, adjs, none)
  | part :: rest =>
    match products.find? (fun p => p.id == part.productId) with
    | none => (processed, st, adjs, some .productNotFound)
    | some product =>
      let stockRec := lookupQty st part.productId
      let currentQty := stockRec.getD 0
      if currentQty < part.quantity then (processed, st, adjs, some .insufficientStock)
      else
        let unitPrice := jsOrQ part.unitPrice product.sellingPrice
        let p : RepairPart :=
          ⟨part.productId, product.name, part.quantity, unitPrice,
           unitPrice * (part.quantity : ℚ)⟩
        match stockRec with
        | none => (processed ++ [p], st, adjs, some .jsTypeError)
        | some prev =>
          let newQ := prev - part.quantity
          match saveStock st part.productId newQ with
          | .error e => (processed ++ [p], st, adjs, some e)
          | .ok st2 =>
            match mkAdjustment part.productId (adjustmentTypesObj "SALE") part.quantity
                prev newQ (some refId) actor with
            | .error e => (processed ++ [p], st2, adjs, some e)
            | .ok adj =>
              partsLoop products st2 (adjs ++ [adj]) (processed ++ [p]) refId actor rest

/-- The completeRepair controller: requires the calling technician to be
assigned and the status to be RECEIVED or IN_PROGRESS, consumes the parts
(SALE adjustments), then saves the job with the parts, the labor cost and
status READY. -/
def completeRepair (db : DB) (jobId : Nat) (laborCost : Option ℚ)
    (parts : List PartInput) (actor : Nat) : DB × Option Err :=
  match findRepair db jobId with
  | none => (db, some .repairJobNotFound)
  | some repair =>
    if repair.assignedTo != some actor then (db, some .notAssignedTechnician)
    else if repair.status != "IN_PROGRESS" && repair.status != "RECEIVED" then
      (db, some .invalidRepairStatus)
    else
      match partsLoop db.products db.stocks db.adjustments [] jobId actor parts with
      | (_, st', adjs', some e) =>
        ({db with stocks := st', adjustments := adjs'}, some e)
      | (processedParts, st', adjs', none) =>
        let repairs' := db.repairs.map (fun r =>
          if r.id == jobId then
            {r with laborCost := jsOrQ laborCost 0, partsUsed := processedParts,
                    status := "READY"}
          else r)
        ({db with stocks := st', adjustments := adjs', repairs := repairs'}, none)

/-- The cancelRepair controller: requires a reason; rejects only jobs whose
status is COMPLETED; restores stock for every recorded part with RETURN
adjustments; then saves the job as CANCELLED with the actor and reason. -/
def cancelRepair (db : DB) (jobId : Nat) (reason : String) (actor : Nat) : DB × Option Err :=
  if reason == "" then (db, some .requiredFields)
  else
    match findRepair db jobId with
    | none => (db, some .repairJobNotFound)
    | some repair =>
      if repair.status == "COMPLETED" then (db, some .cannotCancelCompleted)
      else
        match restoreLoop db.stocks db.adjustments jobId actor
            (repair.partsUsed.map (fun p => (p.product, p.quantity))) with
        | (st', adjs', some e) => ({db with stocks := st', adjustments := adjs'}, some e)
        | (st', adjs', none) =>
          let repairs' := db.repairs.map (fun r =>
            if r.id == jobId then
              {r with status := "CANCELLED", cancelledBy := some actor,
                      cancelReason := some reason}
            else r)
          ({db with stocks := st', adjustments := adjs', repairs := repairs'}, none)

/-! ## Warranty claims (controllers/warranty/warrantyController.js) -/

/-- The checkValidity instance method of warrantyModel: VOID means invalid,
a passed end date means invalid, anything else is valid. -/
def checkValidity (w : Warranty) (now : Int) : Bool :=
  if w.status == "VOID" then false
  else if now > w.endDate then false
  else true

/-- The warrantySchema pre-save hook: an ACTIVE warranty past its end date
is flipped to EXPIRED on save. -/
def warrantySaveHook (now : Int) (w : Warranty) : Warranty :=
  if w.status == "ACTIVE" && now > w.endDate then {w with status := "EXPIRED"} else w

/-- The tail of createClaim shared by all resolution branches: apply any
in-memory document mutation made by the branch, push the claim, promote an
ACTIVE status to CLAIMED, and save (running the pre-save hook). -/
def finalizeClaim (db : DB) (wid : Nat) (upd : Warranty → Warranty) (claim : WClaim)
    (now : Int) : DB :=
  { db with warranties := db.warranties.map (fun w =>
      if w.id == wid then
        let w1 := upd w
        let w2 := {w1 with claims := w1.claims ++ [claim],
                           status := if w1.status == "ACTIVE" then "CLAIMED" else w1.status}
        warrantySaveHook now w2
      else w) }

/-- Resolution of the product replaced by a REPLACE claim: the explicitly
requested replacement product id, or else the warranty product (populated
object in the source, a catalog lookup here). -/
def resolveReplacement (db : DB) (replacementProductId : Option Nat)
    (warrantyProduct : Nat) : Option Product :=
  match replacementProductId with
  | some rpid => findProduct db rpid
  | none => findProduct db warrantyProduct

/-- The createClaim controller of the warranty controller that carries the
resolution side effects (REPAIR links or creates a repair job, REPLACE
deducts the replacement unit from stock, REFUND creates a WARRANTY_REFUND
return and voids the warranty).  The stock deduction of REPLACE is saved
before the adjustment record is created, and both the WARRANTY_REPLACE
adjustment type and the WARRANTY_REFUND return type are undefined member
accesses in the source. -/
def createClaim (db : DB) (now : Int) (wid : Nat) (issue : String)
    (resolution : Option String) (repairJobId : Option Nat)
    (replacementProductId : Option Nat) (actor : Nat) : DB × Option Err :=
  if issue == "" then (db, some .requiredFields)
  else
    match findWarranty db wid with
    | none => (db, some .warrantyNotFound)
    | some warranty =>
      if !(checkValidity warranty now) then (db, some .warrantyInvalid)
      else
        let claim0 : WClaim :=
          { issue := issue, resolution := resolution, claimCost := 0, refundAmount := 0,
            repairJob := none, replacementProduct := none, returnRecord := none,
            processedBy := actor }
        if resolution == some "REPAIR" then
          match repairJobId with
          | some rid =>
            match findRepair db rid with
            | none => (db, some .repairJobNotFound)
            | some _ =>
              (finalizeClaim db wid (fun w => w) {claim0 with repairJob := some rid} now, none)
          | none =>
            let job : RepairJob :=
              { id := db.nextId, status := "RECEIVED", assignedTo := none,
                partsUsed := [], laborCost := 0, cancelledBy := none, cancelReason := none }
            let db1 := {db with repairs := db.repairs ++ [job], nextId := db.nextId + 1}
            (finalizeClaim db1 wid (fun w => w) {claim0 with repairJob := some job.id} now,
             none)
        else if resolution == some "REPLACE" then
          match resolveReplacement db replacementProductId warranty.product with
          | none => (db, some .productNotFound)
          | some product =>
            let pq := getOrCreate db.stocks product.id
            if pq.1 < 1 then ({db with stocks := pq.2}, some .insufficientStock)
            else
              match saveStock pq.2 product.id (pq.1 - 1) with
              | .error e => ({db with stocks := pq.2}, some e)
              | .ok st2 =>
                match mkAdjustment product.id (adjustmentTypesObj "WARRANTY_REPLACE") 1
                    pq.1 (pq.1 - 1) (some warranty.id) actor with
                | .error e => ({db with stocks := st2}, some e)
                | .ok adj =>
                  let db1 := {db with stocks := st2, adjustments := db.adjustments ++ [adj]}
                  (finalizeClaim db1 wid (fun w => w)
                    {claim0 with claimCost := product.costPrice,
                                 replacementProduct := some product.id} now, none)
        else if resolution == some "REFUND" then
          match findProduct db warranty.product with
          | none => (db, some .jsTypeError)
          | some wprod =>
            let refundAmount :=
              match warranty.sale with
              | some sid =>
                match findSale db sid with
                | some originalSale =>
                  match originalSale.items.find? (fun it => it.product == warranty.product) with
                  | some saleItem => saleItem.total
                  | none => wprod.sellingPrice
                | none => wprod.sellingPrice
              | none => wprod.sellingPrice
            let rItem : RetItem :=
              ⟨warranty.product, warranty.productName, 1, refundAmount, refundAmount⟩
            match mkRet db.nextId warranty.sale (returnTypesObj "WARRANTY_REFUND")
                [rItem] refundAmount none 0 (some "CASH") actor with
            | .error e => (db, some e)
            | .ok ret =>
              let db1 := {db with rets := db.rets ++ [ret], nextId := db.nextId + 1}
              (finalizeClaim db1 wid
                (fun w => {w with status := "VOID", voidedBy := some actor,
                                  voidReason := some "Refunded via claim"})
                {claim0 with returnRecord := some ret.id, refundAmount := refundAmount,
                             claimCost := refundAmount} now, none)
        else
          (finalizeClaim db wid (fun w => w) claim0 now, none)

/-! ## Operation sequences and the nonnegativity invariant -/

/-- One stock-mutating operation of the ledger subsystem, with its request
arguments. -/
inductive Op where
  | adjust (productId : Nat) (ty : String) (quantity : Int) (actor : Nat)
  | sale (args : SaleArgs) (now : Int) (actor : Nat)
  | voidS (saleId : Nat) (reason : String) (actor : Nat)
  | ret (originalSaleId : Nat) (items : List ReturnItemInput) (reason : String)
      (refundMethod : Option String) (actor : Nat)
  | exchange (originalSaleId : Nat) (returnItems : List ReturnItemInput)
      (newItems : List SaleItemInput) (payments : List PaymentInput) (reason : String)
      (customer : Option Customer) (actor : Nat)
  | repairComplete (jobId : Nat) (laborCost : Option ℚ) (parts : List PartInput) (actor : Nat)
  | repairCancel (jobId : Nat) (reason : String) (actor : Nat)
  | claim (now : Int) (wid : Nat) (issue : String) (resolution : Option String)
      (repairJobId : Option Nat) (replacementProductId : Option Nat) (actor : Nat)

/-- Dispatch one operation against the database; the error, if any, is
dropped and the committed state kept, which is exactly what a failed HTTP
request leaves behind. -/
def step (db : DB) : Op → DB
  | .adjust pid ty q actor => (adjustStock db pid ty q actor).1
  | .sale args now actor => (createSale db args now actor).1
  | .voidS sid reason actor => (voidSale db sid reason actor).1
  | .ret sid items reason rm actor => (createReturn db sid items reason rm actor).1
  | .exchange sid ri ni pay reason cust actor =>
      (createExchange db sid ri ni pay reason cust actor).1
  | .repairComplete jid lc parts actor => (completeRepair db jid lc parts actor).1
  | .repairCancel jid reason actor => (cancelRepair db jid reason actor).1
  | .claim now wid issue res rjid rpid actor =>
      (createClaim db now wid issue res rjid rpid actor).1

/-- Run a sequence of operations left to right. -/
def runOps (db : DB) : List Op → DB
  | [] => db
  | op :: rest => runOps (step db op) rest

/-- Every persisted stock record carries a nonnegative quantity. -/
def WFStocks (st : Stocks) : Prop := ∀ pr ∈ st, 0 ≤ pr.2

instance (st : Stocks) : Decidable (WFStocks st) := by
  unfold WFStocks
  infer_instance

/-! ## Lemmas about the stock primitives -/

theorem lookupQty_nil (p : Nat) : lookupQty [] p = none := rfl

theorem lookupQty_cons (a : Nat × Int) (st : Stocks) (p : Nat) :
    lookupQty (a :: st) p = if a.1 = p then some a.2 else lookupQty st p := by
  by_cases h : a.1 = p
  · have hb : (a.1 == p) = true := beq_iff_eq.2 h
    simp [lookupQty, List.find?_cons, hb, h]
  · have hb : (a.1 == p) = false := by simp [h]
    simp [lookupQty, List.find?_cons, hb, h]

theorem setStock_cons (a : Nat × Int) (t : Stocks) (p : Nat) (q : Int) :
    setStock (a :: t) p q = (if a.1 == p then (a.1, q) else a) :: setStock t p q := rfl

theorem lookupQty_append (st₁ st₂ : Stocks) (p : Nat) :
    lookupQty (st₁ ++ st₂) p =
      match lookupQty st₁ p with
      | some q => some q
      | none => lookupQty st₂ p := by
  induction st₁ with
  | nil => simp [lookupQty_nil]
  | cons a t ih =>
    rw [List.cons_append, lookupQty_cons, lookupQty_cons]
    by_cases h : a.1 = p <;> simp [h, ih]

theorem getOrCreate_fst (st : Stocks) (p : Nat) :
    (getOrCreate st p).1 = stockQty st p := by
  unfold getOrCreate stockQty
  cases h : lookupQty st p <;> simp [h]

theorem stockQty_getOrCreate (st : Stocks) (p p' : Nat) :
    stockQty (getOrCreate st p).2 p' = stockQty st p' := by
  unfold getOrCreate
  cases h : lookupQty st p with
  | some q => rfl
  | none =>
    unfold stockQty
    rw [lookupQty_append]
    cases h' : lookupQty st p' with
    | some q => rfl
    | none =>
      by_cases hpp : p = p'
      · subst hpp
        simp [lookupQty_cons]
      · simp [lookupQty_cons, hpp, lookupQty_nil]

theorem lookupQty_getOrCreate_self (st : Stocks) (p : Nat) :
    (lookupQty (getOrCreate st p).2 p).isSome := by
  unfold getOrCreate
  cases h : lookupQty st p with
  | some q => simp [h]
  | none =>
    rw [lookupQty_append, h]
    simp [lookupQty_cons]

theorem lookupQty_setStock (st : Stocks) (p : Nat) (q : Int) (p' : Nat) :
    lookupQty (setStock st p q) p' =
      (lookupQty st p').map (fun old => if p' = p then q else old) := by
  induction st with
  | nil => rfl
  | cons a t ih =>
    rw [setStock_cons]
    by_cases hap : a.1 = p
    · have hb : (a.1 == p) = true := beq_iff_eq.2 hap
      rw [if_pos hb]
      by_cases hap' : a.1 = p'
      · have hpp : p' = p := by rw [← hap', hap]
        rw [lookupQty_cons, lookupQty_cons]
        simp [hap', hpp]
      · have hpp : ¬(p' = p) := fun h => hap' (by rw [hap, ← h])
        rw [lookupQty_cons, lookupQty_cons]
        simp [hap', ih]
    · have hb : (a.1 == p) = false := by simp [hap]
      rw [if_neg (by simp [hb])]
      by_cases hap' : a.1 = p'
      · have hpp : ¬(p' = p) := fun h => hap (by rw [hap', h])
        rw [lookupQty_cons, lookupQty_cons]
        simp [hap', hpp]
      · rw [lookupQty_cons, lookupQty_cons]
        simp [hap', ih]

theorem stockQty_setStock_self (st : Stocks) (p : Nat) (q : Int)
    (h : (lookupQty st p).isSome) : stockQty (setStock st p q) p = q := by
  unfold stockQty
  rw [lookupQty_setStock]
  cases h' : lookupQty st p with
  | some v => simp
  | none => rw [h'] at h; simp at h

theorem stockQty_setStock_ne (st : Stocks) (p : Nat) (q : Int) (p' : Nat)
    (h : p' ≠ p) : stockQty (setStock st p q) p' = stockQty st p' := by
  unfold stockQty
  rw [lookupQty_setStock]
  cases h' : lookupQty st p' <;> simp [h]

theorem lookupQty_setStock_isSome (st : Stocks) (p : Nat) (q : Int) (p' : Nat) :
    (lookupQty (setStock st p q) p').isSome = (lookupQty st p').isSome := by
  rw [lookupQty_setStock]
  cases lookupQty st p' <;> simp

theorem wfStocks_nonneg {st : Stocks} (h : WFStocks st) (p : Nat) :
    0 ≤ stockQty st p := by
  unfold stockQty lookupQty
  cases hf : st.find? (fun pr => pr.1 == p) with
  | none => simp
  | some pr =>
    have hm := List.mem_of_find?_eq_some hf
    simpa using h pr hm

theorem wfStocks_setStock {st : Stocks} (h : WFStocks st) {q : Int} (hq : 0 ≤ q)
    (p : Nat) : WFStocks (setStock st p q) := by
  intro pr hpr
  simp only [setStock, List.mem_map] at hpr
  obtain ⟨a, ha, rfl⟩ := hpr
  by_cases hap : a.1 = p
  · simpa [hap] using hq
  · simpa [hap, beq_iff_eq] using h a ha

theorem wfStocks_getOrCreate {st : Stocks} (h : WFStocks st) (p : Nat) :
    WFStocks (getOrCreate st p).2 := by
  unfold getOrCreate
  cases hf : lookupQty st p with
  | some q => exact h
  | none =>
    intro pr hpr
    rcases List.mem_append.1 hpr with hm | hm
    · exact h pr hm
    · simp only [List.mem_singleton] at hm
      simp [hm]

theorem wfStocks_saveStock {st st' : Stocks} {p : Nat} {q : Int}
    (hs : saveStock st p q = .ok st') (h : WFStocks st) : WFStocks st' := by
  unfold saveStock at hs
  by_cases hq : q < 0
  · simp [hq] at hs
  · simp only [hq, if_false] at hs
    cases hs
    exact wfStocks_setStock h (not_lt.1 hq) p

theorem stockQty_saveStock_self {st st' : Stocks} {p : Nat} {q : Int}
    (hs : saveStock st p q = .ok st') (h : (lookupQty st p).isSome) :
    stockQty st' p = q := by
  unfold saveStock at hs
  by_cases hq : q < 0
  · simp [hq] at hs
  · simp only [hq, if_false] at hs
    cases hs
    exact stockQty_setStock_self st p q h

theorem stockQty_saveStock_ne {st st' : Stocks} {p : Nat} {q : Int} {p' : Nat}
    (hs : saveStock st p q = .ok st') (h : p' ≠ p) :
    stockQty st' p' = stockQty st p' := by
  unfold saveStock at hs
  by_cases hq : q < 0
  · simp [hq] at hs
  · simp only [hq, if_false] at hs
    cases hs
    exact stockQty_setStock_ne st p q p' h

/-! ## The nonnegativity invariant is preserved by every loop and flow -/

theorem wfStocks_deductLoop (items : List SaleItem) (st : Stocks) (adjs : List Adjustment)
    (refId actor : Nat) (h : WFStocks st) :
    WFStocks (deductLoop st adjs refId actor items).1 := by
  induction items generalizing st adjs with
  | nil => exact h
  | cons item rest ih =>
    have hg : WFStocks (getOrCreate st item.product).2 := wfStocks_getOrCreate h _
    cases hs : saveStock (getOrCreate st item.product).2 item.product
        ((getOrCreate st item.product).1 - item.quantity) with
    | error e => simp only [deductLoop, hs]; exact hg
    | ok st2 =>
      have h2 : WFStocks st2 := wfStocks_saveStock hs hg
      cases hm : mkAdjustment item.product (adjustmentTypesObj "SALE") item.quantity
          (getOrCreate st item.product).1
          ((getOrCreate st item.product).1 - item.quantity) (some refId) actor with
      | error e => simp only [deductLoop, hs, hm]; exact h2
      | ok adj => simp only [deductLoop, hs, hm]; exact ih st2 (adjs ++ [adj]) h2

theorem wfStocks_restoreLoop (entries : List (Nat × Int)) (st : Stocks)
    (adjs : List Adjustment) (refId actor : Nat) (h : WFStocks st) :
    WFStocks (restoreLoop st adjs refId actor entries).1 := by
  induction entries generalizing st adjs with
  | nil => exact h
  | cons e rest ih =>
    have hg : WFStocks (getOrCreate st e.1).2 := wfStocks_getOrCreate h _
    cases hs : saveStock (getOrCreate st e.1).2 e.1 ((getOrCreate st e.1).1 + e.2) with
    | error er => simp only [restoreLoop, hs]; exact hg
    | ok st2 =>
      have h2 : WFStocks st2 := wfStocks_saveStock hs hg
      cases hm : mkAdjustment e.1 (adjustmentTypesObj "RETURN") e.2
          (getOrCreate st e.1).1 ((getOrCreate st e.1).1 + e.2) (some refId) actor with
      | error er => simp only [restoreLoop, hs, hm]; exact h2
      | ok adj => simp only [restoreLoop, hs, hm]; exact ih st2 (adjs ++ [adj]) h2

theorem wfStocks_returnRestoreLoop (items : List RetItem) (st : Stocks)
    (adjs : List Adjustment) (ws : List Warranty) (origSaleId retId actor : Nat)
    (note : String) (h : WFStocks st) :
    WFStocks (returnRestoreLoop st adjs ws origSaleId retId actor note items).1 := by
  induction items generalizing st adjs ws with
  | nil => exact h
  | cons item rest ih =>
    have hg : WFStocks (getOrCreate st item.product).2 := wfStocks_getOrCreate h _
    cases hs : saveStock (getOrCreate st item.product).2 item.product
        ((getOrCreate st item.product).1 + item.quantity) with
    | error er => simp only [returnRestoreLoop, hs]; exact hg
    | ok st2 =>
      have h2 : WFStocks st2 := wfStocks_saveStock hs hg
      cases hm : mkAdjustment item.product (adjustmentTypesObj "RETURN") item.quantity
          (getOrCreate st item.product).1
          ((getOrCreate st item.product).1 + item.quantity) (some retId) actor with
      | error er => simp only [returnRestoreLoop, hs, hm]; exact h2
      | ok adj => simp only [returnRestoreLoop, hs, hm]; exact ih st2 (adjs ++ [adj]) _ h2

theorem wfStocks_partsLoop (parts : List PartInput) (products : List Product)
    (st : Stocks) (adjs : List Adjustment) (processed : List RepairPart)
    (refId actor : Nat) (h : WFStocks st) :
    WFStocks (partsLoop products st adjs processed refId actor parts).2.1 := by
  induction parts generalizing st adjs processed with
  | nil => exact h
  | cons part rest ih =>
    cases hp : products.find? (fun p => p.id == part.productId) with
    | none => simp only [partsLoop, hp]; exact h
    | some product =>
      cases hrec : lookupQty st part.productId with
      | none =>
        by_cases hq : (0 : Int) < part.quantity
        · simp only [partsLoop, hp, hrec, Option.getD_none, hq, if_true]; exact h
        · simp only [partsLoop, hp, hrec, Option.getD_none, if_neg hq]; exact h
      | some prev =>
        by_cases hq : prev < part.quantity
        · simp only [partsLoop, hp, hrec, Option.getD_some, hq, if_true]; exact h
        · cases hs : saveStock st part.productId (prev - part.quantity) with
          | error er =>
            simp only [partsLoop, hp, hrec, Option.getD_some, if_neg hq, hs]; exact h
          | ok st2 =>
            have h2 : WFStocks st2 := wfStocks_saveStock hs h
            cases hm : mkAdjustment part.productId (adjustmentTypesObj "SALE")
                part.quantity prev (prev - part.quantity) (some refId) actor with
            | error er =>
              simp only [partsLoop, hp, hrec, Option.getD_some, if_neg hq, hs, hm]; exact h2
            | ok adj =>
              simp only [partsLoop, hp, hrec, Option.getD_some, if_neg hq, hs, hm]
              exact ih st2 (adjs ++ [adj]) _ h2

theorem saleWarrantyLoop_stocks (items : List SaleItem) (db : DB) (saleId : Nat)
    (c : Customer) (now : Int) (actor : Nat) :
    (saleWarrantyLoop db saleId c now actor items).stocks = db.stocks := by
  induction items generalizing db with
  | nil => rfl
  | cons item rest ih =>
    cases hp : findProduct db item.product with
    | none => simp only [saleWarrantyLoop, hp]; exact ih db
    | some product =>
      by_cases hw : product.warrantyDuration > 0
      · simp only [saleWarrantyLoop, hp, hw, if_true]
        exact ih _
      · simp only [saleWarrantyLoop, hp, hw, if_false]
        exact ih db

theorem wfStocks_adjustStock (db : DB) (pid : Nat) (ty : String) (q : Int) (actor : Nat)
    (h : WFStocks db.stocks) : WFStocks (adjustStock db pid ty q actor).1.stocks := by
  unfold adjustStock
  by_cases hc1 : (pid == 0 || ty == "" || q == 0) = true
  · rw [if_pos hc1]; exact h
  · rw [if_neg hc1]
    by_cases hc2 : (!adjustmentTypeValues.contains ty) = true
    · rw [if_pos hc2]; exact h
    · rw [if_neg hc2]
      by_cases hc3 : q ≤ 0
      · rw [if_pos hc3]; exact h
      · rw [if_neg hc3]
        cases hp : findProduct db pid with
        | none => simp only [hp]; exact h
        | some product =>
          simp only [hp]
          have hg : WFStocks (getOrCreate db.stocks pid).2 := wfStocks_getOrCreate h _
          by_cases hneg :
              (if (["ADDITION", "PURCHASE", "RETURN", "TRANSFER_IN", "CORRECTION"].contains ty)
                then (getOrCreate db.stocks pid).1 + q
                else (getOrCreate db.stocks pid).1 - q) < 0
          · rw [if_pos hneg]; exact hg
          · rw [if_neg hneg]
            cases hs : saveStock (getOrCreate db.stocks pid).2 pid
                (if (["ADDITION", "PURCHASE", "RETURN", "TRANSFER_IN",
                      "CORRECTION"].contains ty)
                  then (getOrCreate db.stocks pid).1 + q
                  else (getOrCreate db.stocks pid).1 - q) with
            | error e => simp only [hs]; exact hg
            | ok st2 =>
              simp only [hs]
              have h2 : WFStocks st2 := wfStocks_saveStock hs hg
              cases hm : mkAdjustment pid (some ty) q (getOrCreate db.stocks pid).1
                  (if (["ADDITION", "PURCHASE", "RETURN", "TRANSFER_IN",
                        "CORRECTION"].contains ty)
                    then (getOrCreate db.stocks pid).1 + q
                    else (getOrCreate db.stocks pid).1 - q) none actor with
              | error e => simp only [hm]; exact h2
              | ok adj => simp only [hm]; exact h2

theorem wfStocks_deductLoop_eq {items : List SaleItem} {st : Stocks}
    {adjs : List Adjustment} {refId actor : Nat} {st' : Stocks} {adjs' : List Adjustment}
    {e? : Option Err} (heq : deductLoop st adjs refId actor items = (st', adjs', e?))
    (h : WFStocks st) : WFStocks st' := by
  have hw := wfStocks_deductLoop items st adjs refId actor h
  rw [heq] at hw
  exact hw

theorem wfStocks_restoreLoop_eq {entries : List (Nat × Int)} {st : Stocks}
    {adjs : List Adjustment} {refId actor : Nat} {st' : Stocks} {adjs' : List Adjustment}
    {e? : Option Err} (heq : restoreLoop st adjs refId actor entries = (st', adjs', e?))
    (h : WFStocks st) : WFStocks st' := by
  have hw := wfStocks_restoreLoop entries st adjs refId actor h
  rw [heq] at hw
  exact hw

theorem wfStocks_returnRestoreLoop_eq {items : List RetItem} {st : Stocks}
    {adjs : List Adjustment} {ws : List Warranty} {origSaleId retId actor : Nat}
    {note : String} {st' : Stocks} {adjs' : List Adjustment} {ws' : List Warranty}
    {e? : Option Err}
    (heq : returnRestoreLoop st adjs ws origSaleId retId actor note items
      = (st', adjs', ws', e?)) (h : WFStocks st) : WFStocks st' := by
  have hw := wfStocks_returnRestoreLoop items st adjs ws origSaleId retId actor note h
  rw [heq] at hw
  exact hw

theorem wfStocks_partsLoop_eq {parts : List PartInput} {products : List Product}
    {st : Stocks} {adjs : List Adjustment} {processed processed' : List RepairPart}
    {refId actor : Nat} {st' : Stocks} {adjs' : List Adjustment} {e? : Option Err}
    (heq : partsLoop products st adjs processed refId actor parts
      = (processed', st', adjs', e?)) (h : WFStocks st) : WFStocks st' := by
  have hw := wfStocks_partsLoop parts products st adjs processed refId actor h
  rw [heq] at hw
  exact hw

theorem wfStocks_createSale (db : DB) (args : SaleArgs) (now : Int) (actor : Nat)
    (h : WFStocks db.stocks) : WFStocks (createSale db args now actor).1.stocks := by
  unfold createSale
  split
  · exact h
  · split
    · exact h
    · dsimp only
      split
      · exact h
      · split
        · next st' adjs' e heq => exact wfStocks_deductLoop_eq heq h
        · next st' adjs' heq =>
          have hw : WFStocks st' := wfStocks_deductLoop_eq heq h
          split
          · split
            · rw [saleWarrantyLoop_stocks]
              exact hw
            · exact hw
          · exact hw

theorem wfStocks_voidSale (db : DB) (saleId : Nat) (reason : String) (actor : Nat)
    (h : WFStocks db.stocks) : WFStocks (voidSale db saleId reason actor).1.stocks := by
  unfold voidSale
  split
  · exact h
  · split
    · exact h
    · next sale heqs =>
      split
      · exact h
      · split
        · next st' adjs' e heq => exact wfStocks_restoreLoop_eq heq h
        · next st' adjs' heq => exact wfStocks_restoreLoop_eq heq h

theorem finalizeClaim_stocks (db : DB) (wid : Nat) (upd : Warranty → Warranty)
    (claim : WClaim) (now : Int) : (finalizeClaim db wid upd claim now).stocks = db.stocks :=
  rfl

theorem wfStocks_createReturn (db : DB) (sid : Nat) (items : List ReturnItemInput)
    (reason : String) (rm : Option String) (actor : Nat) (h : WFStocks db.stocks) :
    WFStocks (createReturn db sid items reason rm actor).1.stocks := by
  unfold createReturn
  split
  · exact h
  · split
    · exact h
    · split
      · exact h
      · next sale heqs =>
        split
        · exact h
        · split
          · exact h
          · next rItems totalRefund heqp =>
            split
            · exact h
            · next ret heqr =>
              dsimp only
              exact wfStocks_returnRestoreLoop rItems _ _ _ _ _ _ _ h

theorem wfStocks_createExchange (db : DB) (sid : Nat) (ri : List ReturnItemInput)
    (ni : List SaleItemInput) (pay : List PaymentInput) (reason : String)
    (cust : Option Customer) (actor : Nat) (h : WFStocks db.stocks) :
    WFStocks (createExchange db sid ri ni pay reason cust actor).1.stocks := by
  unfold createExchange
  split
  · exact h
  · split
    · exact h
    · split
      · exact h
      · split
        · exact h
        · next sale heqs =>
          split
          · exact h
          · split
            · exact h
            · next rItems totalRefund heqp =>
              split
              · exact h
              · next nItems0 newTotal taxSum heqn =>
                dsimp only
                split
                · exact h
                · split
                  · exact h
                  · split
                    · exact h
                    · next ret heqr =>
                      split
                      · next st' adjs' ws' e heq =>
                        exact wfStocks_returnRestoreLoop_eq heq h
                      · next st' adjs' ws' heq =>
                        exact wfStocks_deductLoop _ _ _ _ _
                          (wfStocks_returnRestoreLoop_eq heq h)

theorem wfStocks_completeRepair (db : DB) (jobId : Nat) (laborCost : Option ℚ)
    (parts : List PartInput) (actor : Nat) (h : WFStocks db.stocks) :
    WFStocks (completeRepair db jobId laborCost parts actor).1.stocks := by
  unfold completeRepair
  split
  · exact h
  · next repair heqr =>
    split
    · exact h
    · split
      · exact h
      · split
        · next pr st' adjs' e heq => exact wfStocks_partsLoop_eq heq h
        · next pr st' adjs' heq => exact wfStocks_partsLoop_eq heq h

theorem wfStocks_cancelRepair (db : DB) (jobId : Nat) (reason : String) (actor : Nat)
    (h : WFStocks db.stocks) : WFStocks (cancelRepair db jobId reason actor).1.stocks := by
  unfold cancelRepair
  split
  · exact h
  · split
    · exact h
    · next repair heqr =>
      split
      · exact h
      · split
        · next st' adjs' e heq => exact wfStocks_restoreLoop_eq heq h
        · next st' adjs' heq => exact wfStocks_restoreLoop_eq heq h

theorem wfStocks_createClaim (db : DB) (now : Int) (wid : Nat) (issue : String)
    (res : Option String) (rjid : Option Nat) (rpid : Option Nat) (actor : Nat)
    (h : WFStocks db.stocks) :
    WFStocks (createClaim db now wid issue res rjid rpid actor).1.stocks := by
  unfold createClaim
  split
  · exact h
  · split
    · exact h
    · next warranty heqw =>
      split
      · exact h
      · dsimp only
        split
        · -- REPAIR branch
          split
          · split
            · exact h
            · exact h
          · exact h
        · split
          · -- REPLACE branch
            split
            · exact h
            · next product heqprod =>
              split
              · exact wfStocks_getOrCreate h _
              · split
                · next e heqsv => exact wfStocks_getOrCreate h _
                · next st2 heqsv =>
                  have h2 : WFStocks st2 :=
                    wfStocks_saveStock heqsv (wfStocks_getOrCreate h _)
                  split
                  · exact h2
                  · exact h2
          · split
            · -- REFUND branch
              split
              · exact h
              · next wprod heqwp =>
                split
                · exact h
                · exact h
            · exact h

theorem wfStocks_step (db : DB) (op : Op) (h : WFStocks db.stocks) :
    WFStocks (step db op).stocks := by
  cases op with
  | adjust pid ty q actor => exact wfStocks_adjustStock db pid ty q actor h
  | sale args now actor => exact wfStocks_createSale db args now actor h
  | voidS sid reason actor => exact wfStocks_voidSale db sid reason actor h
  | ret sid items reason rm actor => exact wfStocks_createReturn db sid items reason rm actor h
  | exchange sid ri ni pay reason cust actor =>
    exact wfStocks_createExchange db sid ri ni pay reason cust actor h
  | repairComplete jid lc parts actor => exact wfStocks_completeRepair db jid lc parts actor h
  | repairCancel jid reason actor => exact wfStocks_cancelRepair db jid reason actor h
  | claim now wid issue res rjid rpid actor =>
    exact wfStocks_createClaim db now wid issue res rjid rpid actor h

theorem wfStocks_runOps (db : DB) (ops : List Op) (h : WFStocks db.stocks) :
    WFStocks (runOps db ops).stocks := by
  induction ops generalizing db with
  | nil => exact h
  | cons op rest ih => exact ih (step db op) (wfStocks_step db op h)

theorem adjustStock_insufficient (db : DB) (pid : Nat) (ty : String) (q : Int)
    (actor : Nat) (hty : ty ∈ ["REDUCTION", "SALE", "DAMAGE", "THEFT", "TRANSFER_OUT"])
    (hq : 0 < q) (hins : stockQty db.stocks pid - q < 0)
    (hp : (findProduct db pid).isSome) (hpid : pid ≠ 0) :
    (adjustStock db pid ty q actor).2 = some .insufficientStock
    ∧ (∀ p, stockQty (adjustStock db pid ty q actor).1.stocks p = stockQty db.stocks p)
    ∧ (adjustStock db pid ty q actor).1.adjustments = db.adjustments := by
  have hq0 : q ≠ 0 := by omega
  have hty' : ty ≠ "" := by fin_cases hty <;> decide
  have hcontains : adjustmentTypeValues.contains ty = true := by fin_cases hty <;> decide
  have hnotadd :
      (["ADDITION", "PURCHASE", "RETURN", "TRANSFER_IN", "CORRECTION"].contains ty)
        = false := by
    fin_cases hty <;> decide
  have hcond1 : ¬((pid == 0 || ty == "" || q == 0) = true) := by
    simp only [Bool.or_eq_true, beq_iff_eq]
    push_neg
    exact ⟨⟨hpid, hty'⟩, hq0⟩
  obtain ⟨prod, hp'⟩ := Option.isSome_iff_exists.1 hp
  have hnle : ¬(q ≤ 0) := by omega
  simp only [adjustStock]
  rw [if_neg hcond1]
  rw [if_neg (by rw [hcontains]; simp)]
  rw [if_neg hnle]
  simp only [hp']
  simp only [hnotadd, Bool.false_eq_true, if_false]
  rw [getOrCreate_fst]
  rw [if_pos hins]
  refine ⟨rfl, ?_, rfl⟩
  intro p
  exact stockQty_getOrCreate db.stocks pid p

/-! ## Quantity accounting for the create-void round trip -/

/-- Total quantity of a given product over a list of sale items. -/
def qtySumS (p : Nat) (items : List SaleItem) : Int :=
  (items.map (fun it => if it.product = p then it.quantity else 0)).sum

/-- Total quantity of a given product over restore entries. -/
def qtySumE (p : Nat) (entries : List (Nat × Int)) : Int :=
  (entries.map (fun e => if e.1 = p then e.2 else 0)).sum

theorem qtySumS_nil (p : Nat) : qtySumS p [] = 0 := rfl

theorem qtySumS_cons (p : Nat) (it : SaleItem) (rest : List SaleItem) :
    qtySumS p (it :: rest) = (if it.product = p then it.quantity else 0) + qtySumS p rest := by
  simp [qtySumS]

theorem qtySumE_nil (p : Nat) : qtySumE p [] = 0 := rfl

theorem qtySumE_cons (p : Nat) (e : Nat × Int) (rest : List (Nat × Int)) :
    qtySumE p (e :: rest) = (if e.1 = p then e.2 else 0) + qtySumE p rest := by
  simp [qtySumE]

theorem qtySumS_cons_self (it : SaleItem) (rest : List SaleItem) :
    qtySumS it.product (it :: rest) = it.quantity + qtySumS it.product rest := by
  simp [qtySumS]

theorem qtySumS_cons_ne (p : Nat) (it : SaleItem) (rest : List SaleItem)
    (h : it.product ≠ p) : qtySumS p (it :: rest) = qtySumS p rest := by
  simp [qtySumS, h]

theorem qtySumE_cons_self (e : Nat × Int) (rest : List (Nat × Int)) :
    qtySumE e.1 (e :: rest) = e.2 + qtySumE e.1 rest := by
  simp [qtySumE]

theorem qtySumE_cons_ne (p : Nat) (e : Nat × Int) (rest : List (Nat × Int))
    (h : e.1 ≠ p) : qtySumE p (e :: rest) = qtySumE p rest := by
  simp [qtySumE, h]

theorem qtySumE_map (p : Nat) (items : List SaleItem) :
    qtySumE p (items.map (fun it => (it.product, it.quantity))) = qtySumS p items := by
  induction items with
  | nil => rfl
  | cons it rest ih => rw [List.map_cons, qtySumE_cons, qtySumS_cons, ih]

theorem saveStock_ok (st : Stocks) (p : Nat) (q : Int) (h : ¬q < 0) :
    saveStock st p q = .ok (setStock st p q) := by
  simp [saveStock, h]

theorem mkAdjustment_valid_ok (p : Nat) (ty : String) (q prevQ newQ : Int)
    (r : Option Nat) (a : Nat) (hty : adjustmentTypeValues.contains ty = true)
    (hq : ¬q < 1) :
    mkAdjustment p (some ty) q prevQ newQ r a = .ok ⟨p, some ty, q, prevQ, newQ, r, a⟩ := by
  simp only [mkAdjustment, hty]
  simp only [Bool.not_true, Bool.false_eq_true, if_false]
  rw [if_neg hq]

theorem adjustmentTypesObj_return : adjustmentTypesObj "RETURN" = some "RETURN" := by
  decide

theorem adjustmentTypesObj_sale : adjustmentTypesObj "SALE" = some "SALE" := by
  decide

theorem deductLoop_stockQty {items : List SaleItem} {st : Stocks} {adjs : List Adjustment}
    {refId actor : Nat} {st' : Stocks} {adjs' : List Adjustment}
    (heq : deductLoop st adjs refId actor items = (st', adjs', none)) :
    ∀ p, stockQty st' p = stockQty st p - qtySumS p items := by
  induction items generalizing st adjs with
  | nil =>
    simp only [deductLoop] at heq
    cases heq
    intro p
    rw [qtySumS_nil]
    omega
  | cons item rest ih =>
    simp only [deductLoop] at heq
    cases hs : saveStock (getOrCreate st item.product).2 item.product
        ((getOrCreate st item.product).1 - item.quantity) with
    | error e => rw [hs] at heq; simp at heq
    | ok st2 =>
      rw [hs] at heq
      cases hm : mkAdjustment item.product (adjustmentTypesObj "SALE") item.quantity
          (getOrCreate st item.product).1
          ((getOrCreate st item.product).1 - item.quantity) (some refId) actor with
      | error e => rw [hm] at heq; simp at heq
      | ok adj =>
        rw [hm] at heq
        have ihp := ih heq
        intro p
        rw [ihp p]
        by_cases hpp : item.product = p
        · subst hpp
          have h2 : stockQty st2 item.product
              = (getOrCreate st item.product).1 - item.quantity :=
            stockQty_saveStock_self hs (lookupQty_getOrCreate_self st item.product)
          rw [qtySumS_cons_self, h2, getOrCreate_fst]
          omega
        · have h2 : stockQty st2 p = stockQty (getOrCreate st item.product).2 p :=
            stockQty_saveStock_ne hs (fun hc => hpp hc.symm)
          rw [qtySumS_cons_ne p item rest hpp, h2, stockQty_getOrCreate]

theorem restoreLoop_success (entries : List (Nat × Int)) (st : Stocks)
    (adjs : List Adjustment) (refId actor : Nat) (hwf : WFStocks st)
    (hpos : ∀ e ∈ entries, 1 ≤ e.2) :
    (restoreLoop st adjs refId actor entries).2.2 = none
    ∧ ∀ p, stockQty (restoreLoop st adjs refId actor entries).1 p
        = stockQty st p + qtySumE p entries := by
  induction entries generalizing st adjs with
  | nil =>
    refine ⟨rfl, fun p => ?_⟩
    rw [qtySumE_nil]
    simp [restoreLoop]
  | cons e rest ih =>
    have h1 : 1 ≤ e.2 := hpos e (List.mem_cons_self e rest)
    have hprev : 0 ≤ (getOrCreate st e.1).1 := by
      rw [getOrCreate_fst]
      exact wfStocks_nonneg hwf e.1
    have hnneg : ¬((getOrCreate st e.1).1 + e.2 < 0) := by omega
    have hs := saveStock_ok (getOrCreate st e.1).2 e.1 ((getOrCreate st e.1).1 + e.2) hnneg
    have hm := mkAdjustment_valid_ok e.1 "RETURN" e.2 (getOrCreate st e.1).1
      ((getOrCreate st e.1).1 + e.2) (some refId) actor (by decide) (by omega)
    have hwf2 : WFStocks (setStock (getOrCreate st e.1).2 e.1 ((getOrCreate st e.1).1 + e.2)) :=
      wfStocks_setStock (wfStocks_getOrCreate hwf e.1) (by omega) e.1
    have hpos2 : ∀ x ∈ rest, 1 ≤ x.2 := fun x hx => hpos x (List.mem_cons_of_mem e hx)
    obtain ⟨ihn, ihq⟩ := ih _ _ hwf2 hpos2
    constructor
    · simp only [restoreLoop, hs, adjustmentTypesObj_return, hm]
      exact ihn
    · intro p
      simp only [restoreLoop, hs, adjustmentTypesObj_return, hm]
      rw [ihq p]
      by_cases hpp : e.1 = p
      · subst hpp
        rw [qtySumE_cons_self,
            stockQty_setStock_self _ _ _ (lookupQty_getOrCreate_self st e.1),
            getOrCreate_fst]
        omega
      · rw [qtySumE_cons_ne p e rest hpp,
            stockQty_setStock_ne _ _ _ _ (fun hc => hpp hc.symm), stockQty_getOrCreate]

theorem find?_append_right {α : Type} (l₁ l₂ : List α) (p : α → Bool)
    (h : l₁.find? p = none) : (l₁ ++ l₂).find? p = l₂.find? p := by
  induction l₁ with
  | nil => rfl
  | cons a t ih =>
    cases hp : p a with
    | true => simp only [List.find?_cons, hp] at h; simp at h
    | false =>
      simp only [List.find?_cons, hp] at h
      simp only [List.cons_append, List.find?_cons, hp]
      exact ih h

theorem saleValidate_none_quantities {s : Sale} (h : saleValidate s = none) :
    ∀ it ∈ s.items, 1 ≤ it.quantity := by
  intro it hit
  unfold saleValidate at h
  by_cases h1 : s.items.isEmpty
  · simp [h1] at h
  · rw [if_neg h1] at h
    by_cases h2 : s.items.any
        (fun it => it.quantity < 1 || it.unitPrice < 0 || it.discount < 0)
    · simp [h2] at h
    · by_contra hlt
      apply h2
      refine List.any_eq_true.2 ⟨it, hit, ?_⟩
      simp only [Bool.or_eq_true, decide_eq_true_eq]
      left; left
      omega

theorem saleWarrantyLoop_sales (items : List SaleItem) (db : DB) (saleId : Nat)
    (c : Customer) (now : Int) (actor : Nat) :
    (saleWarrantyLoop db saleId c now actor items).sales = db.sales := by
  induction items generalizing db with
  | nil => rfl
  | cons item rest ih =>
    cases hp : findProduct db item.product with
    | none => simp only [saleWarrantyLoop, hp]; exact ih db
    | some product =>
      by_cases hw : product.warrantyDuration > 0
      · simp only [saleWarrantyLoop, hp, hw, if_true]
        exact ih _
      · simp only [saleWarrantyLoop, hp, hw, if_false]
        exact ih db

theorem voidSale_restores (dbv db : DB) (sale : Sale) (reason : String) (actor2 : Nat)
    (hsales : dbv.sales = db.sales ++ [sale])
    (hfresh : ∀ s ∈ db.sales, s.id ≠ sale.id)
    (hstat : sale.status = "COMPLETED")
    (hq : ∀ it ∈ sale.items, 1 ≤ it.quantity)
    (hwfv : WFStocks dbv.stocks)
    (hstq : ∀ p, stockQty dbv.stocks p = stockQty db.stocks p - qtySumS p sale.items)
    (hreason : reason ≠ "") :
    (voidSale dbv sale.id reason actor2).2 = none
    ∧ ∀ p, stockQty (voidSale dbv sale.id reason actor2).1.stocks p
        = stockQty db.stocks p := by
  unfold voidSale
  have hr : ¬((reason == "") = true) := by simp [hreason]
  rw [if_neg hr]
  have hfs : findSale dbv sale.id = some sale := by
    unfold findSale
    rw [hsales, find?_append_right]
    · simp [List.find?_cons]
    · apply List.find?_eq_none.2
      intro s hs
      simp [hfresh s hs]
  simp only [hfs]
  have hnv : ¬((sale.status == "VOIDED") = true) := by rw [hstat]; decide
  rw [if_neg hnv]
  have hpos : ∀ e ∈ sale.items.map (fun it => (it.product, it.quantity)), 1 ≤ e.2 := by
    intro e he
    obtain ⟨it, hit, rfl⟩ := List.mem_map.1 he
    exact hq it hit
  obtain ⟨hnone, hsum⟩ := restoreLoop_success
    (sale.items.map (fun it => (it.product, it.quantity)))
    dbv.stocks dbv.adjustments sale.id actor2 hwfv hpos
  rcases hrl : restoreLoop dbv.stocks dbv.adjustments sale.id actor2
      (sale.items.map (fun it => (it.product, it.quantity))) with ⟨st2, adjs2, e?⟩
  rw [hrl] at hnone hsum
  simp only at hnone
  subst hnone
  simp only [hrl]
  refine ⟨by trivial, fun p => ?_⟩
  have h1 := hsum p
  rw [qtySumE_map] at h1
  have h2 := hstq p
  rw [h1, h2]
  omega

/-- Helper restating the success state of createSale for the round trip. -/
theorem voidSale_already_voided (db : DB) (sid : Nat) (reason : String) (actor : Nat)
    (sale : Sale) (hreason : reason ≠ "") (hfs : findSale db sid = some sale)
    (hstat : sale.status = "VOIDED") :
    voidSale db sid reason actor = (db, some .saleAlreadyVoided) := by
  unfold voidSale
  rw [if_neg (by simp [hreason])]
  simp only [hfs]
  rw [if_pos (by rw [hstat]; decide)]

theorem createSale_success (db : DB) (args : SaleArgs) (now : Int) (actor : Nat)
    (db1 : DB) (hwf : WFStocks db.stocks)
    (hcs : createSale db args now actor = (db1, none)) :
    ∃ sale : Sale,
      db1.sales = db.sales ++ [sale]
      ∧ sale.id = db.nextId
      ∧ sale.status = "COMPLETED"
      ∧ (∀ it ∈ sale.items, 1 ≤ it.quantity)
      ∧ WFStocks db1.stocks
      ∧ (∀ p, stockQty db1.stocks p = stockQty db.stocks p - qtySumS p sale.items) := by
  unfold createSale at hcs
  split at hcs
  · simp at hcs
  · split at hcs
    · simp at hcs
    · next pItems0 subtotal taxTotal heqp =>
      dsimp only at hcs
      split at hcs
      · simp at hcs
      · next heqv =>
        split at hcs
        · simp at hcs
        · next st' adjs' heqd =>
          split at hcs
          · next c hc =>
            split at hcs
            · -- customer present with name and phone: warranty loop runs
              have hdb : saleWarrantyLoop _ _ c now actor _ = db1 := congrArg Prod.fst hcs
              subst hdb
              refine ⟨_, ?_, rfl, rfl, saleValidate_none_quantities heqv, ?_, ?_⟩
              · exact saleWarrantyLoop_sales _ _ _ _ _ _
              · rw [saleWarrantyLoop_stocks]
                exact wfStocks_deductLoop_eq heqd hwf
              · intro p
                rw [saleWarrantyLoop_stocks]
                exact deductLoop_stockQty heqd p
            · have hdb : _ = db1 := congrArg Prod.fst hcs
              subst hdb
              refine ⟨_, rfl, rfl, rfl, saleValidate_none_quantities heqv, ?_, ?_⟩
              · exact wfStocks_deductLoop_eq heqd hwf
              · intro p
                exact deductLoop_stockQty heqd p
          · have hdb : _ = db1 := congrArg Prod.fst hcs
            subst hdb
            refine ⟨_, rfl, rfl, rfl, saleValidate_none_quantities heqv, ?_, ?_⟩
            · exact wfStocks_deductLoop_eq heqd hwf
            · intro p
              exact deductLoop_stockQty heqd p

/-! ## Concrete fixtures used by the claim theorems -/

/-- A catalog product: sells at 150, costs 100, no tax, no warranty. -/
def exProduct : Product := ⟨1, "Widget", true, 150, 100, 0, 0⟩

/-- A second product: sells at 10, costs 5, no tax. -/
def exProduct2 : Product := ⟨2, "Gadget", true, 10, 5, 0, 0⟩

/-- Base state: one product with 5 units in stock. -/
def exDB : DB := ⟨[exProduct], [(1, 5)], [], [], [], [], [], 10⟩

/-- An active warranty on product 1 valid until time 100. -/
def exWarranty : Warranty :=
  ⟨50, 1, "Widget", none, 12, 100, "ACTIVE", [], none, none, ⟨"Ann", "077"⟩⟩

/-- State with the active warranty and 5 units of product 1. -/
def exDBW : DB := ⟨[exProduct], [(1, 5)], [], [], [], [exWarranty], [], 60⟩

/-- A completed sale whose single line bought 4 units at 10 with a line
discount of 4. -/
def exSaleDisc : Sale :=
  ⟨20, [⟨1, 1, "Widget", 4, 10, 4, 36⟩], [], none, 40, 0, 0, 36, 36, 0,
   "COMPLETED", none, none⟩

/-- State holding the discounted sale. -/
def exDBRet : DB := ⟨[exProduct], [(1, 0)], [], [exSaleDisc], [], [], [], 30⟩

/-- A completed sale whose single line bought 1 unit at 15. -/
def exSaleX : Sale :=
  ⟨20, [⟨1, 1, "Widget", 1, 15, 0, 15⟩], [], none, 15, 0, 0, 15, 15, 0,
   "COMPLETED", none, none⟩

/-- State for the exchange counterexample: the old line refunds 15, the
replacement product costs 10. -/
def exDBX : DB := ⟨[exProduct, exProduct2], [(1, 0), (2, 5)], [], [exSaleX], [], [], [], 30⟩

/-- A repair job that is already CANCELLED with one consumed part. -/
def exJob : RepairJob :=
  ⟨40, "CANCELLED", some 7, [⟨1, "Widget", 2, 10, 20⟩], 5, some 7, some "earlier"⟩

/-- State holding the cancelled repair job. -/
def exDBJ : DB := ⟨[exProduct], [(1, 5)], [], [], [], [], [exJob], 60⟩

/-- A voided sale and a state holding it. -/
def exSaleVoided : Sale :=
  ⟨21, [⟨1, 1, "Widget", 1, 10, 0, 10⟩], [], none, 10, 0, 0, 10, 10, 0,
   "VOIDED", some 7, some "gone"⟩

/-- State holding the voided sale. -/
def exDBV : DB := ⟨[exProduct], [(1, 5)], [], [exSaleVoided], [], [], [], 40⟩

/-- A non-superadmin with no role permissions and both an ALLOW and a DENY
direct override for the same code, ALLOW listed first. -/
def exUserBoth : UserPerm := ⟨false, [[]], [("SALE_CREATE", "ALLOW"), ("SALE_CREATE", "DENY")]⟩

/-- The duplicate-line sale request of the oversell scenario: product 1
twice, 3 units each, against a stock of 5. -/
def exDupArgs : SaleArgs := ⟨[⟨1, 3, none, none⟩, ⟨1, 3, none, none⟩], [], none, 0, none⟩

/-! ## Claim theorems -/

/-- C9: createSale validates each line independently against the pre-sale
stock level: with product 1 at stock 5 and two lines of 3 units each, the
validation pass accepts every line (processSaleItems succeeds), and the
deduction loop then attempts to drive the stock negative: the first line
commits (stock 5 to 2, one SALE adjustment), the second computes -1 and is
stopped only by the stock-model min-0 save validator, not by an
insufficient-stock check, leaving the sale persisted and stock partially
deducted. -/
theorem claim_duplicate_line_oversell :
    processSaleItems exDB exDupArgs.items
      = .ok ([⟨0, 1, "Widget", 3, 150, 0, 450⟩, ⟨0, 1, "Widget", 3, 150, 0, 450⟩], 900, 0)
    ∧ (createSale exDB exDupArgs 0 7).2 = some .negativeStockValidation
    ∧ stockQty (createSale exDB exDupArgs 0 7).1.stocks 1 = 2
    ∧ (createSale exDB exDupArgs 0 7).1.adjustments.length = 1
    ∧ (createSale exDB exDupArgs 0 7).1.sales.length = 1 := by
  norm_num [createSale, processSaleItems, exDB, exDupArgs, exProduct, findProduct,
    stockQty, lookupQty, jsOrQ, round2, jsRound, saleValidate, assignItemIds,
    deductLoop, getOrCreate, saveStock, setStock, mkAdjustment, adjustmentTypesObj,
    adjustmentTypeValues, List.find?, List.filter]

/-- C2 (code bug): in the warranty REPLACE flow the stock decrement is
saved and only then does StockAdjustment.create run with the undefined
member access ADJUSTMENT_TYPES.WARRANTY_REPLACE, so the create fails schema
validation: the flow ends with the stock record updated (5 to 4) and no
adjustment persisted, a partial write of the supposedly atomic pair. -/
theorem claim_ledger_atomicity_replace_bug :
    adjustmentTypesObj "WARRANTY_REPLACE" = none
    ∧ (createClaim exDBW 0 50 "broken" (some "REPLACE") none none 7).2
        = some .adjustmentValidation
    ∧ stockQty exDBW.stocks 1 = 5
    ∧ stockQty (createClaim exDBW 0 50 "broken" (some "REPLACE") none none 7).1.stocks 1 = 4
    ∧ (createClaim exDBW 0 50 "broken" (some "REPLACE") none none 7).1.adjustments = []
    ∧ (createClaim exDBW 0 50 "broken" (some "REPLACE") none none 7).1.warranties
        = exDBW.warranties := by
  decide

/-- C5 (code bug): the REFUND resolution builds a Return whose returnType
is the undefined member access RETURN_TYPES.WARRANTY_REFUND, so
Return.create fails the required/enum validation: on a currently valid
warranty the whole claim fails, no Return is produced and the warranty is
left untouched (still ACTIVE, not VOID). -/
theorem claim_refund_resolution_bug :
    returnTypesObj "WARRANTY_REFUND" = none
    ∧ checkValidity exWarranty 0 = true
    ∧ (createClaim exDBW 0 50 "dead pixel" (some "REFUND") none none 7).2
        = some .returnValidation
    ∧ (createClaim exDBW 0 50 "dead pixel" (some "REFUND") none none 7).1 = exDBW := by
  decide

/-- C1: along any sequence of embedded operations every committed stock
quantity stays nonnegative, and a manual adjustment whose reduction exceeds
the available quantity fails with the insufficient-stock error while
leaving every stock quantity and the adjustment history unchanged. -/
theorem claim_stock_never_negative :
    (∀ (db : DB) (ops : List Op), WFStocks db.stocks → WFStocks (runOps db ops).stocks)
    ∧ (∀ (db : DB) (pid : Nat) (ty : String) (q : Int) (actor : Nat),
        ty ∈ ["REDUCTION", "SALE", "DAMAGE", "THEFT", "TRANSFER_OUT"] → 0 < q
        → stockQty db.stocks pid - q < 0 → (findProduct db pid).isSome → pid ≠ 0
        → (adjustStock db pid ty q actor).2 = some .insufficientStock
          ∧ (∀ p, stockQty (adjustStock db pid ty q actor).1.stocks p
              = stockQty db.stocks p)
          ∧ (adjustStock db pid ty q actor).1.adjustments = db.adjustments) :=
  ⟨fun db ops h => wfStocks_runOps db ops h,
   fun db pid ty q actor h1 h2 h3 h4 h5 =>
     adjustStock_insufficient db pid ty q actor h1 h2 h3 h4 h5⟩

/-- Witness for C1: the invariant holds after the duplicate-line sale
followed by a manual adjustment, and an over-large SALE adjustment on stock
5 fails as described. -/
theorem claim_stock_never_negative_witness :
    WFStocks (runOps exDB [Op.sale exDupArgs 0 7, Op.adjust 1 "ADDITION" 3 7]).stocks
    ∧ ((adjustStock exDB 1 "SALE" 9 7).2 = some .insufficientStock
       ∧ (∀ p, stockQty (adjustStock exDB 1 "SALE" 9 7).1.stocks p = stockQty exDB.stocks p)
       ∧ (adjustStock exDB 1 "SALE" 9 7).1.adjustments = exDB.adjustments) :=
  ⟨claim_stock_never_negative.1 exDB [Op.sale exDupArgs 0 7, Op.adjust 1 "ADDITION" 3 7]
     (by decide),
   claim_stock_never_negative.2 exDB 1 "SALE" 9 7 (by decide) (by decide) (by decide)
     (by decide) (by decide)⟩

/-- C3 counterexample: a non-superadmin carries both an ALLOW and a DENY
direct override for SALE_CREATE (ALLOW listed first) and no role grants;
the claim says the check must be denied, but authorize grants it because
the first matching override wins. -/
theorem claim_permission_deny_counterexample :
    exUserBoth.isSuperAdmin = false
    ∧ ("SALE_CREATE", "ALLOW") ∈ exUserBoth.directPermissions
    ∧ ("SALE_CREATE", "DENY") ∈ exUserBoth.directPermissions
    ∧ authorize exUserBoth ["SALE_CREATE"] false = true := by
  decide

theorem authorize_single (u : UserPerm) (c : String) (hsa : u.isSuperAdmin = false) :
    authorize u [c] false = checkPermCode u c := by
  unfold authorize
  rw [hsa]
  simp only [Bool.false_eq_true, if_false]
  cases hc : checkPermCode u c <;> simp [List.filter, hc]

/-- C3 as amended: a super admin passes every check; otherwise the first
matching entry of directPermissions decides the code (denied exactly when
its type is DENY, overriding any role grant; when both an ALLOW and a DENY
exist for the code the one listed first wins); with no direct override the
code must come from a role. -/
theorem claim_permission_resolution_amended :
    (∀ (u : UserPerm) (req : List String) (ra : Bool),
       u.isSuperAdmin = true → authorize u req ra = true)
    ∧ (∀ (u : UserPerm) (c : String) (dp : String × String),
       u.isSuperAdmin = false
       → u.directPermissions.find? (fun dp => dp.1 == c) = some dp
       → authorize u [c] false = !(dp.2 == "DENY"))
    ∧ (∀ (u : UserPerm) (c : String),
       u.isSuperAdmin = false
       → u.directPermissions.find? (fun dp => dp.1 == c) = none
       → authorize u [c] false = (u.roles.flatten).contains c) := by
  refine ⟨fun u req ra hsa => by simp [authorize, hsa], ?_, ?_⟩
  · intro u c dp hsa hfind
    rw [authorize_single u c hsa]
    unfold checkPermCode
    rw [hfind]
  · intro u c hsa hfind
    rw [authorize_single u c hsa]
    unfold checkPermCode
    rw [hfind]

/-- Witness for C3 as amended: the superadmin clause, the first-override
clause on the double-override user, and the role-only clause on a user
without overrides. -/
theorem claim_permission_resolution_amended_witness :
    authorize ⟨true, [], []⟩ ["X"] true = true
    ∧ authorize exUserBoth ["SALE_CREATE"] false = !(("ALLOW" : String) == "DENY")
    ∧ authorize ⟨false, [["P"]], []⟩ ["P"] false = ((([["P"]] : List (List String)).flatten).contains "P") :=
  ⟨claim_permission_resolution_amended.1 ⟨true, [], []⟩ ["X"] true (by decide),
   claim_permission_resolution_amended.2.1 exUserBoth "SALE_CREATE" ("SALE_CREATE", "ALLOW")
     (by decide) (by decide),
   claim_permission_resolution_amended.2.2 ⟨false, [["P"]], []⟩ "P" (by decide) (by decide)⟩

/-- C4 counterexample: the claim says adjusting with type WARRANTY_REPLACE
and q = 1 succeeds with newQuantity = previousQuantity - 1, but
WARRANTY_REPLACE is not in ADJUSTMENT_TYPES, so adjustStock rejects it with
the invalid-adjustment-type error and changes nothing (stock stays 5, no
adjustment). -/
theorem claim_adjust_direction_counterexample :
    (0 : Int) < 1
    ∧ adjustStock exDB 1 "WARRANTY_REPLACE" 1 7 = (exDB, some .invalidAdjustmentType)
    ∧ stockQty exDB.stocks 1 = 5 := by
  decide

theorem adjustStock_addition (db : DB) (pid : Nat) (ty : String) (q : Int) (actor : Nat)
    (hty : ty ∈ ["ADDITION", "PURCHASE", "RETURN", "TRANSFER_IN", "CORRECTION"])
    (hq : 0 < q) (hp : (findProduct db pid).isSome) (hpid : pid ≠ 0)
    (hnn : 0 ≤ stockQty db.stocks pid) :
    (adjustStock db pid ty q actor).2 = none
    ∧ stockQty (adjustStock db pid ty q actor).1.stocks pid = stockQty db.stocks pid + q
    ∧ (adjustStock db pid ty q actor).1.adjustments
        = db.adjustments ++ [⟨pid, some ty, q, stockQty db.stocks pid,
            stockQty db.stocks pid + q, none, actor⟩] := by
  have hty' : ty ≠ "" := by fin_cases hty <;> decide
  have hvalid : adjustmentTypeValues.contains ty = true := by fin_cases hty <;> decide
  have haddl : (["ADDITION", "PURCHASE", "RETURN", "TRANSFER_IN", "CORRECTION"].contains ty)
      = true := by
    fin_cases hty <;> decide
  have hcond1 : ¬((pid == 0 || ty == "" || q == 0) = true) := by
    simp only [Bool.or_eq_true, beq_iff_eq]
    push_neg
    exact ⟨⟨hpid, hty'⟩, by omega⟩
  obtain ⟨prod, hp'⟩ := Option.isSome_iff_exists.1 hp
  simp only [adjustStock]
  rw [if_neg hcond1]
  rw [if_neg (by rw [hvalid]; simp)]
  rw [if_neg (show ¬q ≤ 0 by omega)]
  simp only [hp']
  simp only [haddl, if_true]
  rw [getOrCreate_fst]
  rw [if_neg (show ¬stockQty db.stocks pid + q < 0 by omega)]
  rw [saveStock_ok _ _ _ (show ¬stockQty db.stocks pid + q < 0 by omega)]
  rw [mkAdjustment_valid_ok pid ty q (stockQty db.stocks pid)
    (stockQty db.stocks pid + q) none actor hvalid (by omega)]
  refine ⟨rfl, ?_, rfl⟩
  exact stockQty_setStock_self _ _ _ (lookupQty_getOrCreate_self db.stocks pid)

theorem adjustStock_reduction (db : DB) (pid : Nat) (ty : String) (q : Int) (actor : Nat)
    (hty : ty ∈ ["REDUCTION", "SALE", "DAMAGE", "THEFT", "TRANSFER_OUT"])
    (hq : 0 < q) (hp : (findProduct db pid).isSome) (hpid : pid ≠ 0)
    (hge : 0 ≤ stockQty db.stocks pid - q) :
    (adjustStock db pid ty q actor).2 = none
    ∧ stockQty (adjustStock db pid ty q actor).1.stocks pid = stockQty db.stocks pid - q
    ∧ (adjustStock db pid ty q actor).1.adjustments
        = db.adjustments ++ [⟨pid, some ty, q, stockQty db.stocks pid,
            stockQty db.stocks pid - q, none, actor⟩] := by
  have hty' : ty ≠ "" := by fin_cases hty <;> decide
  have hvalid : adjustmentTypeValues.contains ty = true := by fin_cases hty <;> decide
  have hnotadd : (["ADDITION", "PURCHASE", "RETURN", "TRANSFER_IN", "CORRECTION"].contains ty)
      = false := by
    fin_cases hty <;> decide
  have hcond1 : ¬((pid == 0 || ty == "" || q == 0) = true) := by
    simp only [Bool.or_eq_true, beq_iff_eq]
    push_neg
    exact ⟨⟨hpid, hty'⟩, by omega⟩
  obtain ⟨prod, hp'⟩ := Option.isSome_iff_exists.1 hp
  simp only [adjustStock]
  rw [if_neg hcond1]
  rw [if_neg (by rw [hvalid]; simp)]
  rw [if_neg (show ¬q ≤ 0 by omega)]
  simp only [hp']
  simp only [hnotadd, Bool.false_eq_true, if_false]
  rw [getOrCreate_fst]
  rw [if_neg (show ¬stockQty db.stocks pid - q < 0 by omega)]
  rw [saveStock_ok _ _ _ (show ¬stockQty db.stocks pid - q < 0 by omega)]
  rw [mkAdjustment_valid_ok pid ty q (stockQty db.stocks pid)
    (stockQty db.stocks pid - q) none actor hvalid (by omega)]
  refine ⟨rfl, ?_, rfl⟩
  exact stockQty_setStock_self _ _ _ (lookupQty_getOrCreate_self db.stocks pid)

theorem adjustStock_invalid_type (db : DB) (pid : Nat) (ty : String) (q : Int)
    (actor : Nat) (hnot : ty ∉ adjustmentTypeValues) (hty' : ty ≠ "") (hq : 0 < q)
    (hpid : pid ≠ 0) :
    adjustStock db pid ty q actor = (db, some .invalidAdjustmentType) := by
  have hcontains : adjustmentTypeValues.contains ty = false := by
    cases hc : adjustmentTypeValues.contains ty
    · rfl
    · exact absurd (by simpa using hc) hnot
  have hcond1 : ¬((pid == 0 || ty == "" || q == 0) = true) := by
    simp only [Bool.or_eq_true, beq_iff_eq]
    push_neg
    exact ⟨⟨hpid, hty'⟩, by omega⟩
  simp only [adjustStock]
  rw [if_neg hcond1]
  rw [if_pos (by rw [hcontains]; decide)]

/-- C4 as amended: for a positive quantity on an existing product,
ADDITION, PURCHASE, RETURN, TRANSFER_IN and CORRECTION always increase the
quantity by q (CORRECTION has no decreasing branch); REDUCTION, SALE,
DAMAGE, THEFT and TRANSFER_OUT decrease it by q when enough stock exists;
any type outside the ten declared ADJUSTMENT_TYPES values - including
WARRANTY_REPLACE - is rejected with the invalid-adjustment-type error and
leaves the state unchanged. -/
theorem claim_adjust_direction_amended :
    ∀ (db : DB) (pid : Nat) (ty : String) (q : Int) (actor : Nat),
      pid ≠ 0 → 0 < q → (findProduct db pid).isSome →
      ((ty ∈ ["ADDITION", "PURCHASE", "RETURN", "TRANSFER_IN", "CORRECTION"] →
          0 ≤ stockQty db.stocks pid →
          (adjustStock db pid ty q actor).2 = none
          ∧ stockQty (adjustStock db pid ty q actor).1.stocks pid
              = stockQty db.stocks pid + q
          ∧ (adjustStock db pid ty q actor).1.adjustments
              = db.adjustments ++ [⟨pid, some ty, q, stockQty db.stocks pid,
                  stockQty db.stocks pid + q, none, actor⟩])
       ∧ (ty ∈ ["REDUCTION", "SALE", "DAMAGE", "THEFT", "TRANSFER_OUT"] →
          0 ≤ stockQty db.stocks pid - q →
          (adjustStock db pid ty q actor).2 = none
          ∧ stockQty (adjustStock db pid ty q actor).1.stocks pid
              = stockQty db.stocks pid - q
          ∧ (adjustStock db pid ty q actor).1.adjustments
              = db.adjustments ++ [⟨pid, some ty, q, stockQty db.stocks pid,
                  stockQty db.stocks pid - q, none, actor⟩])
       ∧ (ty ∉ adjustmentTypeValues → ty ≠ "" →
          adjustStock db pid ty q actor = (db, some .invalidAdjustmentType))) :=
  fun db pid ty q actor hpid hq hp =>
    ⟨fun hty hnn => adjustStock_addition db pid ty q actor hty hq hp hpid hnn,
     fun hty hge => adjustStock_reduction db pid ty q actor hty hq hp hpid hge,
     fun hnot hne => adjustStock_invalid_type db pid ty q actor hnot hne hq hpid⟩

/-- Witness for C4 as amended: ADDITION adds 2, SALE removes 2, and
WARRANTY_REPLACE is rejected, all on the 5-unit fixture. -/
theorem claim_adjust_direction_amended_witness :
    ((adjustStock exDB 1 "ADDITION" 2 7).2 = none
      ∧ stockQty (adjustStock exDB 1 "ADDITION" 2 7).1.stocks 1 = stockQty exDB.stocks 1 + 2
      ∧ (adjustStock exDB 1 "ADDITION" 2 7).1.adjustments
          = exDB.adjustments ++ [⟨1, some "ADDITION", 2, stockQty exDB.stocks 1,
              stockQty exDB.stocks 1 + 2, none, 7⟩])
    ∧ ((adjustStock exDB 1 "SALE" 2 7).2 = none
      ∧ stockQty (adjustStock exDB 1 "SALE" 2 7).1.stocks 1 = stockQty exDB.stocks 1 - 2
      ∧ (adjustStock exDB 1 "SALE" 2 7).1.adjustments
          = exDB.adjustments ++ [⟨1, some "SALE", 2, stockQty exDB.stocks 1,
              stockQty exDB.stocks 1 - 2, none, 7⟩])
    ∧ adjustStock exDB 1 "WARRANTY_REPLACE" 2 7 = (exDB, some .invalidAdjustmentType) :=
  ⟨(claim_adjust_direction_amended exDB 1 "ADDITION" 2 7 (by decide) (by decide)
      (by decide)).1 (by decide) (by decide),
   (claim_adjust_direction_amended exDB 1 "SALE" 2 7 (by decide) (by decide)
      (by decide)).2.1 (by decide) (by decide),
   (claim_adjust_direction_amended exDB 1 "WARRANTY_REPLACE" 2 7 (by decide) (by decide)
      (by decide)).2.2 (by decide) (by decide)⟩

/-- C6: a sale created by createSale and then voided by voidSale brings
every stock quantity back exactly to its pre-sale level, and voiding an
already-VOIDED sale fails without touching the state. -/
theorem claim_void_restores_stock :
    (∀ (db : DB) (args : SaleArgs) (now : Int) (actor : Nat) (db1 : DB)
        (reason : String) (actor2 : Nat),
      WFStocks db.stocks → (∀ s ∈ db.sales, s.id ≠ db.nextId) → reason ≠ "" →
      createSale db args now actor = (db1, none) →
      (voidSale db1 db.nextId reason actor2).2 = none
      ∧ ∀ p, stockQty (voidSale db1 db.nextId reason actor2).1.stocks p
          = stockQty db.stocks p)
    ∧ (∀ (db : DB) (sid : Nat) (reason : String) (actor : Nat) (sale : Sale),
        reason ≠ "" → findSale db sid = some sale → sale.status = "VOIDED" →
        voidSale db sid reason actor = (db, some .saleAlreadyVoided)) := by
  constructor
  · intro db args now actor db1 reason actor2 hwf hfresh hreason hcs
    obtain ⟨sale, hsales, hid, hstat, hq, hwf1, hstq⟩ :=
      createSale_success db args now actor db1 hwf hcs
    have hfresh' : ∀ s ∈ db.sales, s.id ≠ sale.id := fun s hs => by
      rw [hid]; exact hfresh s hs
    have hmain := voidSale_restores db1 db sale reason actor2 hsales hfresh' hstat hq
      hwf1 hstq hreason
    rw [hid] at hmain
    exact hmain
  · intro db sid reason actor sale hreason hfs hstat
    exact voidSale_already_voided db sid reason actor sale hreason hfs hstat

/-- Sale request of the round-trip witness: 2 units of product 1 paid in
cash. -/
def exArgsRT : SaleArgs := ⟨[⟨1, 2, none, none⟩], [⟨some "CASH", 300⟩], none, 0, none⟩

theorem createSale_exArgsRT_eval :
    createSale exDB exArgsRT 0 7 = ((createSale exDB exArgsRT 0 7).1, none) := by
  have h2 : (createSale exDB exArgsRT 0 7).2 = none := by
    norm_num [createSale, processSaleItems, exDB, exArgsRT, exProduct, findProduct,
      stockQty, lookupQty, jsOrQ, jsOrStr, round2, jsRound, saleValidate, assignItemIds,
      deductLoop, getOrCreate, saveStock, setStock, mkAdjustment, adjustmentTypesObj,
      adjustmentTypeValues, List.find?, List.filter]
  exact Prod.ext_iff.2 ⟨rfl, h2⟩

/-- Witness for C6: selling 2 units from stock 5 and voiding the sale puts
every quantity back, and re-voiding the already voided fixture sale fails. -/
theorem claim_void_restores_stock_witness :
    ((voidSale (createSale exDB exArgsRT 0 7).1 10 "customer changed mind" 8).2 = none
     ∧ ∀ p, stockQty (voidSale (createSale exDB exArgsRT 0 7).1
          10 "customer changed mind" 8).1.stocks p = stockQty exDB.stocks p)
    ∧ voidSale exDBV 21 "again" 8 = (exDBV, some .saleAlreadyVoided) :=
  ⟨claim_void_restores_stock.1 exDB exArgsRT 0 7 _ "customer changed mind" 8
     (by decide) (by decide) (by decide) createSale_exArgsRT_eval,
   claim_void_restores_stock.2 exDBV 21 "again" 8 exSaleVoided (by decide) (by decide)
     (by decide)⟩

theorem restoreLoop_adjustments (entries : List (Nat × Int)) (st : Stocks)
    (adjs : List Adjustment) (refId actor : Nat) (hwf : WFStocks st)
    (hpos : ∀ e ∈ entries, 1 ≤ e.2) :
    ∃ newAdjs, (restoreLoop st adjs refId actor entries).2.1 = adjs ++ newAdjs
      ∧ newAdjs.length = entries.length
      ∧ ∀ a ∈ newAdjs, a.type = some "RETURN" ∧ a.reference = some refId := by
  induction entries generalizing st adjs with
  | nil => exact ⟨[], by simp [restoreLoop], rfl, by simp⟩
  | cons e rest ih =>
    have h1 : 1 ≤ e.2 := hpos e (List.mem_cons_self e rest)
    have hprev : 0 ≤ (getOrCreate st e.1).1 := by
      rw [getOrCreate_fst]
      exact wfStocks_nonneg hwf e.1
    have hnneg : ¬((getOrCreate st e.1).1 + e.2 < 0) := by omega
    have hs := saveStock_ok (getOrCreate st e.1).2 e.1 ((getOrCreate st e.1).1 + e.2) hnneg
    have hm := mkAdjustment_valid_ok e.1 "RETURN" e.2 (getOrCreate st e.1).1
      ((getOrCreate st e.1).1 + e.2) (some refId) actor (by decide) (by omega)
    have hwf2 : WFStocks (setStock (getOrCreate st e.1).2 e.1 ((getOrCreate st e.1).1 + e.2)) :=
      wfStocks_setStock (wfStocks_getOrCreate hwf e.1) (by omega) e.1
    have hpos2 : ∀ x ∈ rest, 1 ≤ x.2 := fun x hx => hpos x (List.mem_cons_of_mem e hx)
    obtain ⟨na, hna, hlen, hall⟩ := ih _ _ hwf2 hpos2
    refine ⟨⟨e.1, some "RETURN", e.2, (getOrCreate st e.1).1,
      (getOrCreate st e.1).1 + e.2, some refId, actor⟩ :: na, ?_, ?_, ?_⟩
    · simp only [restoreLoop, hs, adjustmentTypesObj_return, hm]
      rw [hna]
      simp
    · simp [hlen]
    · intro a ha
      rcases List.mem_cons.1 ha with rfl | hmem
      · exact ⟨rfl, rfl⟩
      · exact hall a hmem

/-- C10: cancelRepair rejects only COMPLETED jobs, so cancelling an
already-CANCELLED job succeeds again: the partsUsed stock restoration runs
a second time (every part quantity is re-added and one more RETURN
adjustment per part is appended) and the CANCELLED status is re-written
with the new actor and reason. -/
theorem claim_cancel_repair_recancel :
    ∀ (db : DB) (jobId : Nat) (reason : String) (actor : Nat) (job : RepairJob),
      reason ≠ "" → findRepair db jobId = some job → job.status = "CANCELLED" →
      WFStocks db.stocks → (∀ part ∈ job.partsUsed, 1 ≤ part.quantity) →
      (cancelRepair db jobId reason actor).2 = none
      ∧ (∀ p, stockQty (cancelRepair db jobId reason actor).1.stocks p
          = stockQty db.stocks p
            + qtySumE p (job.partsUsed.map (fun x => (x.product, x.quantity))))
      ∧ (∃ newAdjs, (cancelRepair db jobId reason actor).1.adjustments
            = db.adjustments ++ newAdjs
          ∧ newAdjs.length = job.partsUsed.length
          ∧ ∀ a ∈ newAdjs, a.type = some "RETURN" ∧ a.reference = some jobId)
      ∧ (cancelRepair db jobId reason actor).1.repairs
          = db.repairs.map (fun r => if r.id == jobId then
              {r with status := "CANCELLED", cancelledBy := some actor,
                      cancelReason := some reason} else r) := by
  intro db jobId reason actor job hreason hfind hstat hwf hparts
  unfold cancelRepair
  rw [if_neg (by simp [hreason])]
  simp only [hfind]
  rw [if_neg (by rw [hstat]; decide)]
  have hpos' : ∀ e ∈ job.partsUsed.map (fun x => (x.product, x.quantity)), 1 ≤ e.2 := by
    intro e he
    obtain ⟨x, hx, rfl⟩ := List.mem_map.1 he
    exact hparts x hx
  obtain ⟨hnone, hsum⟩ := restoreLoop_success
    (job.partsUsed.map (fun x => (x.product, x.quantity)))
    db.stocks db.adjustments jobId actor hwf hpos'
  obtain ⟨na, hna, hlen, hall⟩ := restoreLoop_adjustments
    (job.partsUsed.map (fun x => (x.product, x.quantity)))
    db.stocks db.adjustments jobId actor hwf hpos'
  rcases hrl : restoreLoop db.stocks db.adjustments jobId actor
      (job.partsUsed.map (fun x => (x.product, x.quantity))) with ⟨st2, adjs2, e?⟩
  rw [hrl] at hnone hsum hna
  simp only at hnone hna hsum
  subst hnone
  simp only [hrl]
  refine ⟨by trivial, fun p => hsum p, ⟨na, hna, ?_, hall⟩, by trivial⟩
  rw [hlen, List.length_map]

/-- Witness for C10: re-cancelling the already cancelled fixture job
succeeds, restores the 2 consumed units again (5 to 7) and appends one
more RETURN adjustment with the new actor and reason recorded. -/
theorem claim_cancel_repair_recancel_witness :
    (cancelRepair exDBJ 40 "again" 9).2 = none
    ∧ (∀ p, stockQty (cancelRepair exDBJ 40 "again" 9).1.stocks p
        = stockQty exDBJ.stocks p
          + qtySumE p (exJob.partsUsed.map (fun x => (x.product, x.quantity))))
    ∧ (∃ newAdjs, (cancelRepair exDBJ 40 "again" 9).1.adjustments
          = exDBJ.adjustments ++ newAdjs
        ∧ newAdjs.length = exJob.partsUsed.length
        ∧ ∀ a ∈ newAdjs, a.type = some "RETURN" ∧ a.reference = some 40)
    ∧ (cancelRepair exDBJ 40 "again" 9).1.repairs
        = exDBJ.repairs.map (fun r => if r.id == 40 then
            {r with status := "CANCELLED", cancelledBy := some 9,
                    cancelReason := some "again"} else r) :=
  claim_cancel_repair_recancel exDBJ 40 "again" 9 exJob (by decide) (by decide)
    (by decide) (by decide) (by decide)

/-- C7 counterexample: the original line bought 4 units at 10 with a line
discount of 4; returning 1 unit should refund 10 - 4/4 = 9 under the
claimed per-unit discount share, but the code subtracts the whole line
discount and refunds 6. -/
theorem claim_return_refund_counterexample :
    (createReturn exDBRet 20 [⟨1, some 1⟩] "defect" none 7).2 = none
    ∧ ((createReturn exDBRet 20 [⟨1, some 1⟩] "defect" none 7).1.rets.map
        (fun r => (r.totalRefund, r.items.map (fun it => it.refundAmount)))) = [(6, [6])]
    ∧ (6 : ℚ) ≠ 10 * 1 - 4 * (1 / 4) := by
  norm_num +decide [createReturn, processReturnItems, exDBRet, exSaleDisc, exProduct, findSale,
    findProduct, mkRet, returnTypesObj, returnTypeValues, returnRestoreLoop, getOrCreate,
    saveStock, setStock, stockQty, lookupQty, mkAdjustment, adjustmentTypesObj,
    adjustmentTypeValues, jsOrStr, round2, jsRound, List.find?]

theorem mkRet_ok_fields {id : Nat} {os : Option Nat} {rt : Option String}
    {items : List RetItem} {tr : ℚ} {xs : Option Nat} {due : ℚ} {rm : Option String}
    {a : Nat} {ret : Ret} (h : mkRet id os rt items tr xs due rm a = .ok ret) :
    ∃ t, rt = some t ∧ ret = ⟨id, os, t, items, tr, xs, due, rm, "COMPLETED", a⟩ := by
  cases rt with
  | none => simp [mkRet] at h
  | some t =>
    refine ⟨t, rfl, ?_⟩
    unfold mkRet at h
    dsimp only at h
    split_ifs at h with h1 h2 h3 h4
    all_goals
      first
      | (simp at h; done)
      | (simp at h; exact h.symm)

theorem createReturn_success (db : DB) (sid : Nat) (inputs : List ReturnItemInput)
    (reason : String) (rm : Option String) (actor : Nat) (db' : DB) (sale : Sale)
    (hfs : findSale db sid = some sale)
    (hcr : createReturn db sid inputs reason rm actor = (db', none)) :
    ∃ rItems total ret,
      processReturnItems sale inputs = .ok (rItems, total)
      ∧ db'.rets = db.rets ++ [ret]
      ∧ ret.items = rItems
      ∧ ret.totalRefund = round2 total
      ∧ ret.returnType = "REFUND" := by
  unfold createReturn at hcr
  split at hcr
  · simp at hcr
  · split at hcr
    · simp at hcr
    · rw [hfs] at hcr
      simp only at hcr
      split at hcr
      · simp at hcr
      · split at hcr
        · simp at hcr
        · next rItems total heqp =>
          split at hcr
          · simp at hcr
          · next ret heqr =>
            obtain ⟨t, hrt, hretdef⟩ := mkRet_ok_fields heqr
            have hteq : t = "REFUND" := by
              have hobj : returnTypesObj "REFUND" = some "REFUND" := by decide
              rw [hobj] at hrt
              injection hrt with h5
              exact h5.symm
            subst hteq
            have hdb : _ = db' := congrArg Prod.fst hcr
            subst hdb
            exact ⟨rItems, total, ret, heqp, by rw [hretdef], by rw [hretdef],
              by rw [hretdef], by rw [hretdef]⟩

/-- C7 as amended: each return item must reference an existing line of the
original sale by embedded item id (otherwise not-found), the returned
quantity (defaulting to the purchased quantity) may not exceed the
purchased quantity (otherwise the cannot-return-more error), and the item
refund is unitPrice times returnQty minus the FULL original line discount
(not a per-unit share scaled to the returned quantity); the persisted
totalRefund is the rounded sum of the unrounded item refunds. -/
theorem claim_return_refund_amended :
    (∀ (sale : Sale) (item : ReturnItemInput) (rest : List ReturnItemInput),
      sale.items.find? (fun si => si.itemId == item.saleItemId) = none →
      processReturnItems sale (item :: rest) = .error .saleItemNotFound)
    ∧ (∀ (sale : Sale) (item : ReturnItemInput) (rest : List ReturnItemInput)
        (saleItem : SaleItem) (rq : Int),
      sale.items.find? (fun si => si.itemId == item.saleItemId) = some saleItem →
      rq = (match item.quantity with
            | some q => if q == 0 then saleItem.quantity else q
            | none => saleItem.quantity) →
      rq > saleItem.quantity →
      processReturnItems sale (item :: rest) = .error .cannotReturnMore)
    ∧ (∀ (sale : Sale) (item : ReturnItemInput) (rest : List ReturnItemInput)
        (saleItem : SaleItem) (rq : Int) (items : List RetItem) (total : ℚ),
      sale.items.find? (fun si => si.itemId == item.saleItemId) = some saleItem →
      rq = (match item.quantity with
            | some q => if q == 0 then saleItem.quantity else q
            | none => saleItem.quantity) →
      ¬(rq > saleItem.quantity) →
      processReturnItems sale rest = .ok (items, total) →
      processReturnItems sale (item :: rest)
        = .ok (⟨saleItem.product, saleItem.productName, rq, saleItem.unitPrice,
            round2 (saleItem.unitPrice * (rq : ℚ) - saleItem.discount)⟩ :: items,
           (saleItem.unitPrice * (rq : ℚ) - saleItem.discount) + total))
    ∧ (∀ (db : DB) (sid : Nat) (inputs : List ReturnItemInput) (reason : String)
        (rm : Option String) (actor : Nat) (db' : DB) (sale : Sale),
      findSale db sid = some sale →
      createReturn db sid inputs reason rm actor = (db', none) →
      ∃ rItems total ret,
        processReturnItems sale inputs = .ok (rItems, total)
        ∧ db'.rets = db.rets ++ [ret]
        ∧ ret.items = rItems
        ∧ ret.totalRefund = round2 total
        ∧ ret.returnType = "REFUND") := by
  refine ⟨?_, ?_, ?_, ?_⟩
  · intro sale item rest hfind
    simp only [processReturnItems, hfind]
  · intro sale item rest saleItem rq hfind hrq hgt
    subst hrq
    simp only [processReturnItems, hfind]
    rw [if_pos hgt]
  · intro sale item rest saleItem rq items total hfind hrq hle hrest
    subst hrq
    simp only [processReturnItems, hfind]
    rw [if_neg hle, hrest]
  · intro db sid inputs reason rm actor db' sale hfs hcr
    exact createReturn_success db sid inputs reason rm actor db' sale hfs hcr

theorem createReturn_exRet_eval :
    createReturn exDBRet 20 [⟨1, some 1⟩] "defect" none 7
      = ((createReturn exDBRet 20 [⟨1, some 1⟩] "defect" none 7).1, none) := by
  have h2 : (createReturn exDBRet 20 [⟨1, some 1⟩] "defect" none 7).2 = none := by
    norm_num +decide [createReturn, processReturnItems, exDBRet, exSaleDisc, exProduct,
      findSale, findProduct, mkRet, returnTypesObj, returnTypeValues, returnRestoreLoop,
      getOrCreate, saveStock, setStock, stockQty, lookupQty, mkAdjustment,
      adjustmentTypesObj, adjustmentTypeValues, jsOrStr, round2, jsRound, List.find?]
  exact Prod.ext_iff.2 ⟨rfl, h2⟩

/-- Witness for C7 as amended: missing line ids and over-quantities are
rejected, returning 1 of the 4-unit line with unit price 10 and line
discount 4 refunds round2 of 10 - 4 = 6, and the persisted Return carries
that rounded sum. -/
theorem claim_return_refund_amended_witness :
    processReturnItems exSaleDisc [⟨99, none⟩] = .error .saleItemNotFound
    ∧ processReturnItems exSaleDisc [⟨1, some 5⟩] = .error .cannotReturnMore
    ∧ processReturnItems exSaleDisc [⟨1, some 1⟩]
        = .ok ([⟨1, "Widget", 1, 10, round2 (10 * ((1 : Int) : ℚ) - 4)⟩],
               (10 * ((1 : Int) : ℚ) - 4) + 0)
    ∧ ∃ rItems total ret,
        processReturnItems exSaleDisc [⟨1, some 1⟩] = .ok (rItems, total)
        ∧ (createReturn exDBRet 20 [⟨1, some 1⟩] "defect" none 7).1.rets
            = exDBRet.rets ++ [ret]
        ∧ ret.items = rItems
        ∧ ret.totalRefund = round2 total
        ∧ ret.returnType = "REFUND" :=
  ⟨claim_return_refund_amended.1 exSaleDisc ⟨99, none⟩ [] (by decide),
   claim_return_refund_amended.2.1 exSaleDisc ⟨1, some 5⟩ [] ⟨1, 1, "Widget", 4, 10, 4, 36⟩
     5 (by decide) (by decide) (by decide),
   claim_return_refund_amended.2.2.1 exSaleDisc ⟨1, some 1⟩ [] ⟨1, 1, "Widget", 4, 10, 4, 36⟩
     1 [] 0 (by decide) (by decide) (by decide) (by decide),
   claim_return_refund_amended.2.2.2 exDBRet 20 [⟨1, some 1⟩] "defect" none 7 _ exSaleDisc
     (by decide) createReturn_exRet_eval⟩

/-- C8 counterexample: the returned line refunds 15 while the replacement
items total 10, so newItemsTotal - totalRefund = -5; the claim says the
persisted exchangeAmountDue preserves this negative value, but the stored
record clamps it to 0 (the refund owed is only signalled by refundMethod
CASH). -/
theorem claim_exchange_due_counterexample :
    (createExchange exDBX 20 [⟨1, some 1⟩] [⟨2, 1, none, none⟩] [] "swap" none 7).2 = none
    ∧ ((createExchange exDBX 20 [⟨1, some 1⟩] [⟨2, 1, none, none⟩] [] "swap" none 7).1.rets.map
        (fun r => (r.returnType, r.exchangeAmountDue, r.totalRefund)))
        = [("EXCHANGE", 0, 15)]
    ∧ (0 : ℚ) ≠ 10 - 15 := by
  norm_num +decide [createExchange, processReturnItems, processExchangeNewItems, exDBX,
    exSaleX, exProduct, exProduct2, findSale, findProduct, mkRet, returnTypesObj,
    returnTypeValues, returnRestoreLoop, deductLoop, saleValidate, assignItemIds,
    getOrCreate, saveStock, setStock, stockQty, lookupQty, mkAdjustment,
    adjustmentTypesObj, adjustmentTypeValues, jsOrQ, jsOrStr, round2, jsRound,
    List.find?, List.filter, show ((1 : Nat) == 2) = false from rfl,
    show ((2 : Nat) == 1) = false from rfl]

theorem createExchange_success (db : DB) (sid : Nat) (ri : List ReturnItemInput)
    (ni : List SaleItemInput) (pay : List PaymentInput) (reason : String)
    (cust : Option Customer) (actor : Nat) (db' : DB) (sale : Sale)
    (hfs : findSale db sid = some sale)
    (hce : createExchange db sid ri ni pay reason cust actor = (db', none)) :
    ∃ rItems refundTotal nItems newTotal taxSum ret,
      processReturnItems sale ri = .ok (rItems, refundTotal)
      ∧ processExchangeNewItems db ni = .ok (nItems, newTotal, taxSum)
      ∧ db'.rets = db.rets ++ [ret]
      ∧ ret.returnType = "EXCHANGE"
      ∧ ret.items = rItems
      ∧ ret.totalRefund = round2 refundTotal
      ∧ ret.exchangeAmountDue = max 0 (round2 (newTotal - refundTotal))
      ∧ ret.refundMethod
          = (if round2 (newTotal - refundTotal) < 0 then some "CASH" else none) := by
  unfold createExchange at hce
  split at hce
  · simp at hce
  · split at hce
    · simp at hce
    · split at hce
      · simp at hce
      · rw [hfs] at hce
        simp only at hce
        split at hce
        · simp at hce
        · split at hce
          · simp at hce
          · next rItems refundTotal heqr =>
            split at hce
            · simp at hce
            · next nItems newTotal taxSum heqn =>
              split at hce
              · simp at hce
              · split at hce
                · simp at hce
                · split at hce
                  · simp at hce
                  · next ret heqm =>
                    split at hce
                    · simp at hce
                    · next st' adjs' ws' heqloop =>
                      obtain ⟨t, hrt, hretdef⟩ := mkRet_ok_fields heqm
                      have hteq : t = "EXCHANGE" := by
                        have hobj : returnTypesObj "EXCHANGE" = some "EXCHANGE" := by decide
                        rw [hobj] at hrt
                        injection hrt with h5
                        exact h5.symm
                      subst hteq
                      have hdb : _ = db' := congrArg Prod.fst hce
                      subst hdb
                      exact ⟨rItems, refundTotal, nItems, newTotal, taxSum, ret, heqr, heqn,
                        by rw [hretdef], by rw [hretdef], by rw [hretdef], by rw [hretdef],
                        by rw [hretdef], by rw [hretdef]⟩

/-- C8 as amended: on every successful exchange the persisted EXCHANGE
Return stores exchangeAmountDue = max(0, round2(newItemsTotal -
totalRefund)): the difference clamped at zero, never negative; when the
difference is negative the stored value is 0 and the refund owed to the
customer is signalled only by refundMethod = CASH. -/
theorem claim_exchange_due_amended :
    ∀ (db : DB) (sid : Nat) (ri : List ReturnItemInput) (ni : List SaleItemInput)
      (pay : List PaymentInput) (reason : String) (cust : Option Customer) (actor : Nat)
      (db' : DB) (sale : Sale),
      findSale db sid = some sale →
      createExchange db sid ri ni pay reason cust actor = (db', none) →
      ∃ rItems refundTotal nItems newTotal taxSum ret,
        processReturnItems sale ri = .ok (rItems, refundTotal)
        ∧ processExchangeNewItems db ni = .ok (nItems, newTotal, taxSum)
        ∧ db'.rets = db.rets ++ [ret]
        ∧ ret.returnType = "EXCHANGE"
        ∧ ret.items = rItems
        ∧ ret.totalRefund = round2 refundTotal
        ∧ ret.exchangeAmountDue = max 0 (round2 (newTotal - refundTotal))
        ∧ 0 ≤ ret.exchangeAmountDue
        ∧ ret.refundMethod
            = (if round2 (newTotal - refundTotal) < 0 then some "CASH" else none) := by
  intro db sid ri ni pay reason cust actor db' sale hfs hce
  obtain ⟨rItems, refundTotal, nItems, newTotal, taxSum, ret, h1, h2, h3, h4, h5, h6, h7, h8⟩ :=
    createExchange_success db sid ri ni pay reason cust actor db' sale hfs hce
  exact ⟨rItems, refundTotal, nItems, newTotal, taxSum, ret, h1, h2, h3, h4, h5, h6, h7,
    by rw [h7]; exact le_max_left 0 _, h8⟩

theorem createExchange_exX_eval :
    createExchange exDBX 20 [⟨1, some 1⟩] [⟨2, 1, none, none⟩] [] "swap" none 7
      = ((createExchange exDBX 20 [⟨1, some 1⟩] [⟨2, 1, none, none⟩] [] "swap" none 7).1,
         none) := by
  have h2 : (createExchange exDBX 20 [⟨1, some 1⟩] [⟨2, 1, none, none⟩] [] "swap" none 7).2
      = none := by
    norm_num +decide [createExchange, processReturnItems, processExchangeNewItems, exDBX,
      exSaleX, exProduct, exProduct2, findSale, findProduct, mkRet, returnTypesObj,
      returnTypeValues, returnRestoreLoop, deductLoop, saleValidate, assignItemIds,
      getOrCreate, saveStock, setStock, stockQty, lookupQty, mkAdjustment,
      adjustmentTypesObj, adjustmentTypeValues, jsOrQ, jsOrStr, round2, jsRound,
      List.find?, List.filter, show ((1 : Nat) == 2) = false from rfl,
      show ((2 : Nat) == 1) = false from rfl]
  exact Prod.ext_iff.2 ⟨rfl, h2⟩

/-- Witness for C8 as amended: in the refund-exceeds-new-items exchange the
persisted record carries the clamped difference. -/
theorem claim_exchange_due_amended_witness :
    ∃ rItems refundTotal nItems newTotal taxSum ret,
      processReturnItems exSaleX [⟨1, some 1⟩] = .ok (rItems, refundTotal)
      ∧ processExchangeNewItems exDBX [⟨2, 1, none, none⟩] = .ok (nItems, newTotal, taxSum)
      ∧ (createExchange exDBX 20 [⟨1, some 1⟩] [⟨2, 1, none, none⟩] [] "swap" none 7).1.rets
          = exDBX.rets ++ [ret]
      ∧ ret.returnType = "EXCHANGE"
      ∧ ret.items = rItems
      ∧ ret.totalRefund = round2 refundTotal
      ∧ ret.exchangeAmountDue = max 0 (round2 (newTotal - refundTotal))
      ∧ 0 ≤ ret.exchangeAmountDue
      ∧ ret.refundMethod
          = (if round2 (newTotal - refundTotal) < 0 then some "CASH" else none) :=
  claim_exchange_due_amended exDBX 20 [⟨1, some 1⟩] [⟨2, 1, none, none⟩] [] "swap" none 7
    _ exSaleX (by decide) createExchange_exX_eval

end Hotline
